import Mathlib

/-!
Shallow embedding of `src/hianime_mcp_server.py` (HiAnime MCP server).

The server exposes anime-catalog tools.  Each tool validates its arguments
against closed vocabularies, issues at most one HTTP request, and renders the
upstream JSON into text.  We embed:

* upstream JSON bodies as the inductive `JVal` (numbers are integers; the
  claims under study do not involve fractional values);
* Python dictionary access, truthiness, `str()` conversion, `str.lower()`,
  `str.strip()`, `str.split()`, `str.join()`, `str.title()`, `str.replace()`
  and the `:,`/`.1f` format specs as explicit total/`Except`-valued functions
  (`Except`'s error channel models an uncaught Python exception; ASCII-level
  behaviour of the case functions, which covers every vocabulary in the file);
* each tool as (a) a pure "plan" computing the validation outcome and the
  request it would send, and (b) the full tool taking the upstream outcome
  (`Upstream` for GET tools, `PostOutcome` for the OAuth/user POST tools,
  whose `except Exception as e` handler sees only `str(e)`) to the final text.
-/

set_option linter.unusedVariables false

namespace HiAnime

/-- Upstream JSON values (`response.json()`).  Objects keep field order. -/
inductive JVal where
  | str (s : String)
  | num (n : Int)
  | bool (b : Bool)
  | null
  | arr (xs : List JVal)
  | obj (fs : List (String × JVal))

/-- Python truthiness (`if x:`) for JSON values. -/
def truthy : JVal → Bool
  | .str s => !s.data.isEmpty
  | .num n => n != 0
  | .bool b => b
  | .null => false
  | .arr xs => !xs.isEmpty
  | .obj fs => !fs.isEmpty

/-- First-match association lookup, as in a Python dict (keys are unique). -/
def dGet : List (String × JVal) → String → Option JVal
  | [], _ => none
  | (k, v) :: fs, key => if k = key then some v else dGet fs key

/-- Python `v.get(k, d)`: succeeds on a dict, raises `AttributeError`
(modelled as `Except.error`) on anything else. -/
def pyGet (v : JVal) (k : String) (d : JVal) : Except String JVal :=
  match v with
  | .obj fs => .ok ((dGet fs k).getD d)
  | _ => .error "AttributeError: object has no attribute get"

/-- A value used where Python requires a `str` (method receiver). -/
def asStr : JVal → Except String String
  | .str s => .ok s
  | _ => .error "AttributeError: not a str"

/-- Python `len(v)`. -/
def pyLen : JVal → Except String Nat
  | .arr xs => .ok xs.length
  | .str s => .ok s.data.length
  | .obj fs => .ok fs.length
  | _ => .error "TypeError: object has no len"

/-- Python iteration (`for x in v`): lists yield elements, strings yield
one-character strings, dicts yield their keys; other values raise. -/
def pyIter : JVal → Except String (List JVal)
  | .arr xs => .ok xs
  | .str s => .ok (s.data.map fun c => .str (String.mk [c]))
  | .obj fs => .ok (fs.map fun kv => .str kv.1)
  | _ => .error "TypeError: object is not iterable"

mutual

/-- Python `repr()` for JSON values (used by `str()` on containers). -/
def pyRepr : JVal → String
  | .str s => "'" ++ s ++ "'"
  | .num n => toString n
  | .bool true => "True"
  | .bool false => "False"
  | .null => "None"
  | .arr xs => "[" ++ pyReprList xs ++ "]"
  | .obj fs => "\x7b" ++ pyReprFields fs ++ "\x7d"

/-- Comma-separated reprs of list elements. -/
def pyReprList : List JVal → String
  | [] => ""
  | [v] => pyRepr v
  | v :: vs => pyRepr v ++ ", " ++ pyReprList vs

/-- Comma-separated reprs of dict entries. -/
def pyReprFields : List (String × JVal) → String
  | [] => ""
  | [(k, v)] => "'" ++ k ++ "': " ++ pyRepr v
  | (k, v) :: fs => "'" ++ k ++ "': " ++ pyRepr v ++ ", " ++ pyReprFields fs

end

/-- Python `str()` as used by f-string interpolation. -/
def pyStr : JVal → String
  | .str s => s
  | v => pyRepr v

/-- The `sep.join(strings)`. -/
def joinSep (sep : String) : List String → String
  | [] => ""
  | [s] => s
  | s :: rest => s ++ sep ++ joinSep sep rest

/-- Except-valued map over a list, stopping at the first error (a Python
loop/comprehension that may raise mid-way). -/
def mapME {α β : Type} (f : α → Except String β) : List α → Except String (List β)
  | [] => .ok []
  | a :: as' => do
      let b ← f a
      let bs ← mapME f as'
      .ok (b :: bs)

/-- The `sep.join(values)` over JSON values: every element must be a `str`. -/
def joinStrList (sep : String) (xs : List JVal) : Except String String := do
  let ss ← mapME (fun v => match v with
    | JVal.str s => Except.ok s
    | _ => Except.error "TypeError: sequence item: expected str instance") xs
  .ok (joinSep sep ss)

/-- ASCII whitespace recognised by `str.strip()` (the arguments in this
code base contain no exotic whitespace). -/
def isWS (c : Char) : Bool := c == ' ' || c == '\t' || c == '\n' || c == '\r'

/-- The `str.strip()`. -/
def trimS (s : String) : String :=
  String.mk (((s.data.dropWhile isWS).reverse.dropWhile isWS).reverse)

/-- The `str.lower()` (ASCII). -/
def lowS (s : String) : String := String.mk (s.data.map Char.toLower)

/-- The `str.upper()` (ASCII). -/
def upS (s : String) : String := String.mk (s.data.map Char.toUpper)

/-- The `str.split(sep)` for a one-character separator, Python semantics:
`"" ↦ [""]`, `"a?b" ↦ ["a", "b"]`. -/
def splitChar (sep : Char) : List Char → List (List Char)
  | [] => [[]]
  | c :: cs =>
      match splitChar sep cs with
      | [] => [[c]]
      | g :: gs => if c == sep then [] :: g :: gs else (c :: g) :: gs

/-- The `url.split('?')[0]`. -/
def beforeQ (s : String) : String := String.mk ((splitChar '?' s.data).headD [])

/-- The `s.split('/')[-1]`. -/
def lastSeg (s : String) : String := String.mk ((splitChar '/' s.data).getLastD [])

/-- The `url.split('?')[0].split('/')[-1]`. -/
def urlSlug (u : String) : String := lastSeg (beforeQ u)

/-- The `str.replace(a, b)` for one-character patterns. -/
def replaceChar (a b : Char) (s : String) : String :=
  String.mk (s.data.map fun c => if c == a then b else c)

/-- Helper for `str.title()`: tracks whether the previous char was a letter. -/
def titleChars : Bool → List Char → List Char
  | _, [] => []
  | prevAlpha, c :: cs =>
      (if c.isAlpha then (if prevAlpha then c.toLower else c.toUpper) else c)
        :: titleChars c.isAlpha cs

/-- The `str.title()` (ASCII letters). -/
def pyTitle (s : String) : String := String.mk (titleChars false s.data)

/-- groups of three characters, used to place thousands separators. -/
def group3 : List Char → List (List Char)
  | [] => []
  | a :: b :: c :: d :: rest => [a, b, c] :: group3 (d :: rest)
  | l => [l]

/-- joins character groups with a separator character. -/
def joinCharSep (sep : Char) : List (List Char) → List Char
  | [] => []
  | [g] => g
  | g :: gs => g ++ [sep] ++ joinCharSep sep gs

/-- The `f"{n:,}"` for a natural number: thousands separators every 3 digits. -/
def commaFmtNat (n : Nat) : String :=
  String.mk ((joinCharSep ',' (group3 (toString n).data.reverse)).reverse)

/-- The `f"{n:,}"` for an integer. -/
def commaFmtInt : Int → String
  | .ofNat n => commaFmtNat n
  | .negSucc m => "-" ++ commaFmtNat (m + 1)

/-- Applying the `:,` format spec to a JSON value.  Python accepts ints
(and bools, which are ints), and raises on anything else — in particular
`format('N/A', ',')` raises `ValueError: Cannot specify ',' with 's'.`. -/
def pyFormatComma : JVal → Except String String
  | .num n => .ok (commaFmtInt n)
  | .bool b => .ok (if b then "1" else "0")
  | .str _ => .error "ValueError: Cannot specify ',' with 's'."
  | .null => .error "TypeError: unsupported format string passed to NoneType.__format__"
  | .arr _ => .error "TypeError: unsupported format string passed to list.__format__"
  | .obj _ => .error "TypeError: unsupported format string passed to dict.__format__"

/-- Applying the `.1f` format spec to a JSON value (an int `n` renders as
`"n.0"`; fractional upstream values are outside this model). -/
def pyFormat1f : JVal → Except String String
  | .num n => .ok (toString n ++ ".0")
  | .bool b => .ok (if b then "1.0" else "0.0")
  | _ => .error "TypeError: unsupported format string"

/-- Python `v > k` against an int: ints and bools compare, others raise. -/
def pyGtInt (v : JVal) (k : Int) : Except String Bool :=
  match v with
  | .num n => .ok (decide (k < n))
  | .bool b => .ok (decide (k < (if b then (1 : Int) else 0)))
  | _ => .error "TypeError: comparison not supported"

/-- Python `v == k` against an int (total, never raises). -/
def pyEqInt (v : JVal) (k : Int) : Bool :=
  match v with
  | .num n => n == k
  | .bool b => (if b then (1 : Int) else 0) == k
  | _ => false

/-- Python truthiness of an optional-string argument (`if s:` where `s` may
be `None` or a string). -/
def optTruthy : Option String → Bool
  | none => false
  | some s => !s.data.isEmpty

/-! ### Validation tables (module-level constants of the source) -/

/-- The `AVAILABLE_GENRES`. -/
def AVAILABLE_GENRES : List String :=
  ["action", "adventure", "cars", "comedy", "dementia", "demons", "drama",
   "ecchi", "fantasy", "game", "harem", "historical", "horror", "isekai",
   "josei", "kids", "magic", "martial-arts", "mecha", "military", "music",
   "mystery", "parody", "police", "psychological", "romance", "samurai",
   "school", "sci-fi", "seinen", "shoujo", "shoujo-ai", "shounen",
   "shounen-ai", "slice-of-life", "space", "sports", "super-power",
   "supernatural", "thriller", "vampire"]

/-- The `AVAILABLE_TYPES`. -/
def AVAILABLE_TYPES : List String := ["movie", "tv", "ova", "ona", "special", "music"]

/-- The `AVAILABLE_STATUSES`. -/
def AVAILABLE_STATUSES : List String := ["finished", "airing", "upcoming"]

/-- The `AVAILABLE_RATINGS`. -/
def AVAILABLE_RATINGS : List String := ["g", "pg", "pg-13", "r", "r+", "rx"]

/-- The `AVAILABLE_SEASONS`. -/
def AVAILABLE_SEASONS : List String := ["spring", "summer", "fall", "winter"]

/-- The `AVAILABLE_SORT_OPTIONS`. -/
def AVAILABLE_SORT_OPTIONS : List String :=
  ["default", "recently_added", "recently_updated", "score",
   "name_az", "released_date", "most_watched"]

/-- The `MAL_RANKING_TYPES`. -/
def MAL_RANKING_TYPES : List String :=
  ["all", "airing", "upcoming", "tv", "movie", "bypopularity", "favorite"]

/-- The `MAL_LIST_STATUSES`. -/
def MAL_LIST_STATUSES : List String :=
  ["watching", "completed", "on_hold", "dropped", "plan_to_watch"]

/-- The `', '.join(xs)`. -/
def joinComma (xs : List String) : String := joinSep ", " xs

/-- The `"=" * 50`, the separator bar under every listing header. -/
def eqBar : String := String.mk (List.replicate 50 '=')

/-! ### Text renderers (`format_*` functions of the source) -/

/-- Slug extraction of `format_anime_item` (source lines 103-112):
`slug = item.get('slug', '')`; if `not slug and item.get('id')`, take the
last path segment of `url.split('?')[0]` when `url` is truthy, else
`item.get('id', 'N/A')`; otherwise keep `slug` as read. -/
def derive_slug (item : List (String × JVal)) : Except String JVal :=
  let slug := (dGet item "slug").getD (.str "")
  let url := (dGet item "url").getD (.str "")
  if truthy slug = false && truthy ((dGet item "id").getD .null) then
    if truthy url then do
      let u ← asStr url
      .ok (.str (urlSlug u))
    else
      .ok ((dGet item "id").getD (.str "N/A"))
  else
    .ok slug

/-- URL cleaning of `format_anime_item` (source lines 115-116): if `url` is
truthy, strip everything from `?`; a falsy `url` renders no Page line, which
we represent by the empty string. -/
def clean_url (item : List (String × JVal)) : Except String String :=
  let url := (dGet item "url").getD (.str "")
  if truthy url then do
    let u ← asStr url
    .ok (beforeQ u)
  else
    .ok ""

/-- The `format_anime_item` (source lines 100-135). -/
def format_anime_item (itemV : JVal) : Except String String :=
  match itemV with
  | .obj item => do
      let slug ← derive_slug item
      let urlC ← clean_url item
      let epsForSub := (dGet item "episodes").getD (.obj [])
      let subInner ← pyGet epsForSub "sub" (.str "N/A")
      let eps_sub := (dGet item "episodes_sub").getD subInner
      let epsForDub := (dGet item "episodes").getD (.obj [])
      let dubInner ← pyGet epsForDub "dub" (.str "N/A")
      let eps_dub := (dGet item "episodes_dub").getD dubInner
      let eps_display := "Sub: " ++ pyStr eps_sub
      let eps_display :=
        if truthy eps_dub then eps_display ++ ", Dub: " ++ pyStr eps_dub else eps_display
      let r := "\n📺 **" ++ pyStr ((dGet item "title").getD (.str "Unknown Title"))
        ++ "**\n   ▸ Slug: `" ++ pyStr slug
        ++ "` ← Use this for episode lookup\n   ▸ Type: "
        ++ pyStr ((dGet item "type").getD (.str "N/A"))
        ++ "\n   ▸ Episodes: " ++ eps_display
        ++ "\n   ▸ Duration: " ++ pyStr ((dGet item "duration").getD (.str "N/A"))
      let r := if urlC.data.isEmpty then r else r ++ "\n   ▸ Page: " ++ urlC
      .ok r
  | _ => .error "AttributeError: object has no attribute get"

/-- The `format_anime_list` (source lines 138-142). -/
def format_anime_list (data : JVal) : Except String String :=
  if truthy data = false then .ok "No anime found."
  else do
    let xs ← pyIter data
    let lines ← mapME format_anime_item xs
    .ok (joinSep "\n" lines)

/-- The `format_anime_details` (source lines 145-174).  Field reads occur in the
order the f-string evaluates them. -/
def format_anime_details (data : JVal) : Except String String := do
  let info ← pyGet data "data" data
  let anime_info ← pyGet info "anime" info
  let title ← pyGet anime_info "title" (.str "Unknown Title")
  let jtInner ← pyGet anime_info "japaneseTitle" (.str "N/A")
  let jt ← pyGet anime_info "japanese_title" jtInner
  let ty ← pyGet anime_info "type" (.str "N/A")
  let status ← pyGet anime_info "status" (.str "N/A")
  let epsInner ← pyGet anime_info "totalEpisodes" (.str "N/A")
  let eps ← pyGet anime_info "episodes" epsInner
  let dur ← pyGet anime_info "duration" (.str "N/A")
  let aired ← pyGet anime_info "aired" (.str "N/A")
  let season ← pyGet anime_info "season" (.str "N/A")
  let ratInner ← pyGet anime_info "malscore" (.str "N/A")
  let rating ← pyGet anime_info "rating" ratInner
  let synInner ← pyGet anime_info "description" (.str "No synopsis available.")
  let synopsis ← pyGet anime_info "synopsis" synInner
  let gCond ← pyGet anime_info "genres" .null
  let gTxt ← if truthy gCond then do
      let gv ← pyGet anime_info "genres" (.arr [])
      let gxs ← pyIter gv
      joinStrList ", " gxs
    else .ok "N/A"
  let sCond ← pyGet anime_info "studios" .null
  let sTxt ← if truthy sCond then do
      let sv ← pyGet anime_info "studios" (.arr [])
      let sxs ← pyIter sv
      joinStrList ", " sxs
    else .ok "N/A"
  let pCond ← pyGet anime_info "producers" .null
  let pTxt ← if truthy pCond then do
      let pv ← pyGet anime_info "producers" (.arr [])
      let pxs ← pyIter pv
      joinStrList ", " pxs
    else .ok "N/A"
  .ok ("\n🎬 **" ++ pyStr title ++ "**\n\n📝 **Basic Information:**\n   - Japanese Title: "
    ++ pyStr jt ++ "\n   - Type: " ++ pyStr ty ++ "\n   - Status: " ++ pyStr status
    ++ "\n   - Episodes: " ++ pyStr eps ++ "\n   - Duration: " ++ pyStr dur
    ++ "\n   - Aired: " ++ pyStr aired ++ "\n   - Season: " ++ pyStr season
    ++ "\n   - Rating: " ++ pyStr rating ++ "\n\n📖 **Synopsis:**\n" ++ pyStr synopsis
    ++ "\n\n🏷️ **Genres:** " ++ gTxt ++ "\n\n🎭 **Studios:** " ++ sTxt
    ++ "\n\n�icing **Producers:** " ++ pTxt ++ "\n")

/-- One episode line of `format_episode_list` (source lines 183-200). -/
def episode_line (include_urls : Bool) (epV : JVal) : Except String String :=
  match epV with
  | .obj ep => do
      let ep_num := (dGet ep "number").getD ((dGet ep "episodeNum").getD (.str "N/A"))
      let title := (dGet ep "title").getD ((dGet ep "name").getD (.str "N/A"))
      let jt := (dGet ep "japanese_title").getD (.str "")
      let ep_id := (dGet ep "id").getD (.str "")
      let url := (dGet ep "url").getD (.str "")
      let filler :=
        if truthy ((dGet ep "is_filler").getD ((dGet ep "isFiller").getD (.bool false)))
        then " 🔸 Filler" else ""
      let l := "   Episode " ++ pyStr ep_num ++ ": " ++ pyStr title
      let l := if truthy jt then l ++ " (" ++ pyStr jt ++ ")" else l
      let l := l ++ filler
      let l := if include_urls && truthy url then l ++ "\n      📎 Reference: " ++ pyStr url else l
      let l := if truthy ep_id then l ++ "\n      🆔 ID: " ++ pyStr ep_id else l
      .ok l
  | _ => .error "AttributeError: object has no attribute get"

/-- The `format_episode_list` (source lines 177-205): empty input renders the
fixed sentence, otherwise the first 20 entries are rendered and a
`... and N more episodes.` suffix is appended when more than 20 exist. -/
def format_episode_list (data : JVal) (include_urls : Bool := true) : Except String String :=
  if truthy data = false then .ok "No episodes found."
  else do
    let xs ← pyIter data
    let lines ← mapME (episode_line include_urls) (xs.take 20)
    let r := joinSep "\n\n" lines
    .ok (if xs.length > 20 then
          r ++ "\n\n... and " ++ toString (xs.length - 20) ++ " more episodes."
        else r)

/-- The `format_mal_anime_item` (source lines 822-843).  `picture_url` is
computed (and can raise) but never rendered, exactly as in the source. -/
def format_mal_anime_item (itemV : JVal) : Except String String := do
  let node ← pyGet itemV "node" itemV
  let title ← pyGet node "title" (.str "Unknown Title")
  let mal_id ← pyGet node "id" (.str "N/A")
  let main_picture ← pyGet node "main_picture" (.obj [])
  let pInner ← pyGet main_picture "large" (.str "")
  let _picture_url ← pyGet main_picture "medium" pInner
  let ranking ← pyGet itemV "ranking" (.obj [])
  let rank ← pyGet ranking "rank" (.str "")
  let r := "\n📺 **" ++ pyStr title ++ "**\n   ▸ MAL ID: `" ++ pyStr mal_id
    ++ "` ← Use this for MAL details lookup\n   ▸ MAL URL: https://myanimelist.net/anime/"
    ++ pyStr mal_id
  let r := if truthy rank then r ++ "\n   ▸ Rank: #" ++ pyStr rank else r
  .ok r

/-- The `format_mal_anime_list` (source lines 846-850). -/
def format_mal_anime_list (data : JVal) : Except String String :=
  if truthy data = false then .ok "No anime found."
  else do
    let xs ← pyIter data
    let lines ← mapME format_mal_anime_item xs
    .ok (joinSep "\n" lines)

/-- The `format_mal_anime_details` (source lines 853-936).  The two
thousands-separated holes (`num_scoring_users`, `num_list_users`) go through
`pyFormatComma`, which mirrors Python raising on the `'N/A'` string default. -/
def format_mal_anime_details (data : JVal) : Except String String :=
  if truthy data = false then .ok "No details available."
  else do
    let title ← pyGet data "title" (.str "Unknown Title")
    let mal_id ← pyGet data "id" (.str "N/A")
    let media_type ← pyGet data "media_type" (.str "N/A")
    let status ← pyGet data "status" (.str "N/A")
    let num_episodes ← pyGet data "num_episodes" (.str "N/A")
    let start_date ← pyGet data "start_date" (.str "N/A")
    let end_date ← pyGet data "end_date" (.str "N/A")
    let mean_score ← pyGet data "mean" (.str "N/A")
    let rank ← pyGet data "rank" (.str "N/A")
    let popularity ← pyGet data "popularity" (.str "N/A")
    let num_scoring_users ← pyGet data "num_scoring_users" (.str "N/A")
    let num_list_users ← pyGet data "num_list_users" (.str "N/A")
    let synopsis ← pyGet data "synopsis" (.str "No synopsis available.")
    let genres ← pyGet data "genres" (.arr [])
    let genre_names ← if truthy genres then do
        let gxs ← pyIter genres
        mapME (fun g => pyGet g "name" (.str "")) gxs
      else .ok []
    let studios ← pyGet data "studios" (.arr [])
    let studio_names ← if truthy studios then do
        let sxs ← pyIter studios
        mapME (fun s => pyGet s "name" (.str "")) sxs
      else .ok []
    let alt_titles ← pyGet data "alternative_titles" (.obj [])
    let japanese_title ← pyGet alt_titles "ja" (.str "N/A")
    let english_title ← pyGet alt_titles "en" (.str "N/A")
    let start_season ← pyGet data "start_season" (.obj [])
    let season ← pyGet start_season "season" (.str "")
    let year ← pyGet start_season "year" (.str "")
    let season_display ← if truthy season && truthy year then do
        let s ← asStr season
        Except.ok (pyTitle s ++ " " ++ pyStr year)
      else .ok "N/A"
    let rating ← pyGet data "rating" (.str "N/A")
    let source ← pyGet data "source" (.str "N/A")
    let nsu ← pyFormatComma num_scoring_users
    let nlu ← pyFormatComma num_list_users
    let gTxt ← if genre_names.isEmpty then .ok "N/A" else joinStrList ", " genre_names
    let sTxt ← if studio_names.isEmpty then .ok "N/A" else joinStrList ", " studio_names
    .ok ("\n🎬 **" ++ pyStr title ++ "** (MAL)\n\n📝 **Basic Information:**\n   - MAL ID: "
      ++ pyStr mal_id ++ "\n   - English Title: " ++ pyStr english_title
      ++ "\n   - Japanese Title: " ++ pyStr japanese_title
      ++ "\n   - Type: " ++ pyStr media_type ++ "\n   - Status: " ++ pyStr status
      ++ "\n   - Episodes: " ++ pyStr num_episodes ++ "\n   - Season: " ++ season_display
      ++ "\n   - Aired: " ++ pyStr start_date ++ " to " ++ pyStr end_date
      ++ "\n   - Rating: " ++ pyStr rating ++ "\n   - Source: " ++ pyStr source
      ++ "\n\n⭐ **Scores & Rankings:**\n   - Mean Score: " ++ pyStr mean_score
      ++ "/10\n   - Rank: #" ++ pyStr rank ++ "\n   - Popularity: #" ++ pyStr popularity
      ++ "\n   - Scoring Users: " ++ nsu ++ "\n   - List Users: " ++ nlu
      ++ "\n\n📖 **Synopsis:**\n" ++ pyStr synopsis
      ++ "\n\n🏷️ **Genres:** " ++ gTxt ++ "\n\n🎭 **Studios:** " ++ sTxt
      ++ "\n\n🔗 **MAL URL:** https://myanimelist.net/anime/" ++ pyStr mal_id ++ "\n")

/-- One block of `format_mal_user_animelist` (source lines 945-962). -/
def mal_user_item_line (itemV : JVal) : Except String String := do
  let node ← pyGet itemV "node" (.obj [])
  let list_status ← pyGet itemV "list_status" (.obj [])
  let title ← pyGet node "title" (.str "Unknown Title")
  let mal_id ← pyGet node "id" (.str "N/A")
  let status ← pyGet list_status "status" (.str "N/A")
  let score ← pyGet list_status "score" (.num 0)
  let watched_eps ← pyGet list_status "num_episodes_watched" (.num 0)
  let gt ← pyGtInt score 0
  let score_display := if gt then "⭐ " ++ pyStr score ++ "/10" else "Not rated"
  let statusS ← asStr status
  .ok ("\n📺 **" ++ pyStr title ++ "**\n   ▸ MAL ID: " ++ pyStr mal_id
    ++ "\n   ▸ Status: " ++ pyTitle (replaceChar '_' ' ' statusS)
    ++ "\n   ▸ Score: " ++ score_display
    ++ "\n   ▸ Episodes Watched: " ++ pyStr watched_eps)

/-- The `format_mal_user_animelist` (source lines 939-967): empty input renders
the fixed sentence, otherwise the first 25 entries are rendered and a
`... and N more anime.` suffix is appended when more than 25 exist. -/
def format_mal_user_animelist (data : JVal) : Except String String :=
  if truthy data = false then .ok "No anime in list."
  else do
    let xs ← pyIter data
    let lines ← mapME mal_user_item_line (xs.take 25)
    let r := joinSep "\n" lines
    .ok (if xs.length > 25 then
          r ++ "\n\n... and " ++ toString (xs.length - 25) ++ " more anime."
        else r)

/-! ### Upstream client and tool plumbing -/

/-- Outcome of the single HTTP GET a tool performs: a JSON body on success,
or one of the three failure kinds caught by `make_api_request`. -/
inductive Upstream where
  | ok (body : JVal)
  | timeout
  | statusError (code : Nat)
  | transportError (msg : String)

/-- The `make_api_request` (source lines 71-97): `response.json()` on success,
`None` for each of `httpx.TimeoutException`, `httpx.HTTPStatusError` and any
other `Exception` (all logged, none re-raised). -/
def make_api_request : Upstream → Option JVal
  | .ok body => some body
  | .timeout => none
  | .statusError _ => none
  | .transportError _ => none

/-- Whether the upstream outcome is one of the three failure kinds. -/
def isFailureU : Upstream → Bool
  | .ok _ => false
  | _ => true

/-- Outcome of an OAuth/user POST (source lines 1219-1231 etc.): the JSON
body, or the `str(e)` of the exception caught by `except Exception as e`. -/
inductive PostOutcome where
  | ok (body : JVal)
  | exn (msg : String)

/-- A query-string / JSON-payload parameter value. -/
inductive PV where
  | s (v : String)
  | i (v : Int)
deriving DecidableEq

/-- One upstream HTTP request a tool would issue. -/
structure Request where
  path : String
  params : List (String × PV)
deriving DecidableEq

/-- The `if not data or not data.get("success")` guard shared by the tools:
`.ok false` means the guard fires (generic failure text). -/
def body_success (body : JVal) : Except String Bool :=
  if truthy body = false then .ok false
  else do
    let s ← pyGet body "success" .null
    .ok (truthy s)

/-! ### HiAnime GET tools -/

/-- Request of `search_anime` (source line 226). -/
def search_anime_request (keyword : String) (page : Int) : Request :=
  ⟨"/api/search", [("keyword", .s keyword), ("page", .i page)]⟩

/-- The `search_anime` (source lines 213-242), given the upstream outcome. -/
def search_anime (keyword : String) (page : Int) (u : Upstream) : Except String String :=
  match make_api_request u with
  | none => .ok ("Unable to search for '" ++ keyword ++ "'. Please try again later.")
  | some data => do
      let ok ← body_success data
      if ok = false then
        .ok ("Unable to search for '" ++ keyword ++ "'. Please try again later.")
      else do
        let anime_list ← pyGet data "data" (.arr [])
        let n ← pyLen anime_list
        let count ← pyGet data "count" (.num n)
        let current_page ← pyGet data "page" (.num page)
        if truthy anime_list = false then
          .ok ("No anime found for '" ++ keyword ++ "'.")
        else do
          let listing ← format_anime_list anime_list
          .ok ("🔍 **Search Results for '" ++ keyword ++ "'** (Page " ++ pyStr current_page
            ++ ", " ++ pyStr count ++ " results)\n" ++ eqBar ++ "\n" ++ listing)

/-- The `get_popular_anime` (source lines 246-270). -/
def get_popular_anime (page : Int) (u : Upstream) : Except String String :=
  match make_api_request u with
  | none => .ok "Unable to fetch popular anime. Please try again later."
  | some data => do
      let ok ← body_success data
      if ok = false then .ok "Unable to fetch popular anime. Please try again later."
      else do
        let anime_list ← pyGet data "data" (.arr [])
        let n ← pyLen anime_list
        let count ← pyGet data "count" (.num n)
        let listing ← format_anime_list anime_list
        .ok ("🌟 **Most Popular Anime** (Page " ++ toString page ++ ", " ++ pyStr count
          ++ " results)\n" ++ eqBar ++ "\n" ++ listing)

/-- The `get_top_airing_anime` (source lines 274-298). -/
def get_top_airing_anime (page : Int) (u : Upstream) : Except String String :=
  match make_api_request u with
  | none => .ok "Unable to fetch top airing anime. Please try again later."
  | some data => do
      let ok ← body_success data
      if ok = false then .ok "Unable to fetch top airing anime. Please try again later."
      else do
        let anime_list ← pyGet data "data" (.arr [])
        let n ← pyLen anime_list
        let count ← pyGet data "count" (.num n)
        let listing ← format_anime_list anime_list
        .ok ("📡 **Currently Airing Anime** (Page " ++ toString page ++ ", " ++ pyStr count
          ++ " results)\n" ++ eqBar ++ "\n" ++ listing)

/-- The `get_recently_updated_anime` (source lines 302-326). -/
def get_recently_updated_anime (page : Int) (u : Upstream) : Except String String :=
  match make_api_request u with
  | none => .ok "Unable to fetch recently updated anime. Please try again later."
  | some data => do
      let ok ← body_success data
      if ok = false then .ok "Unable to fetch recently updated anime. Please try again later."
      else do
        let anime_list ← pyGet data "data" (.arr [])
        let n ← pyLen anime_list
        let count ← pyGet data "count" (.num n)
        let listing ← format_anime_list anime_list
        .ok ("🆕 **Recently Updated Anime** (Page " ++ toString page ++ ", " ++ pyStr count
          ++ " results)\n" ++ eqBar ++ "\n" ++ listing)

/-- The `get_completed_anime` (source lines 330-354). -/
def get_completed_anime (page : Int) (u : Upstream) : Except String String :=
  match make_api_request u with
  | none => .ok "Unable to fetch completed anime. Please try again later."
  | some data => do
      let ok ← body_success data
      if ok = false then .ok "Unable to fetch completed anime. Please try again later."
      else do
        let anime_list ← pyGet data "data" (.arr [])
        let n ← pyLen anime_list
        let count ← pyGet data "count" (.num n)
        let listing ← format_anime_list anime_list
        .ok ("✅ **Completed Anime** (Page " ++ toString page ++ ", " ++ pyStr count
          ++ " results)\n" ++ eqBar ++ "\n" ++ listing)

/-- The `get_subbed_anime` (source lines 358-382). -/
def get_subbed_anime (page : Int) (u : Upstream) : Except String String :=
  match make_api_request u with
  | none => .ok "Unable to fetch subbed anime. Please try again later."
  | some data => do
      let ok ← body_success data
      if ok = false then .ok "Unable to fetch subbed anime. Please try again later."
      else do
        let anime_list ← pyGet data "data" (.arr [])
        let n ← pyLen anime_list
        let count ← pyGet data "count" (.num n)
        let listing ← format_anime_list anime_list
        .ok ("📝 **Subbed Anime** (Page " ++ toString page ++ ", " ++ pyStr count
          ++ " results)\n" ++ eqBar ++ "\n" ++ listing)

/-- The `get_dubbed_anime` (source lines 386-410). -/
def get_dubbed_anime (page : Int) (u : Upstream) : Except String String :=
  match make_api_request u with
  | none => .ok "Unable to fetch dubbed anime. Please try again later."
  | some data => do
      let ok ← body_success data
      if ok = false then .ok "Unable to fetch dubbed anime. Please try again later."
      else do
        let anime_list ← pyGet data "data" (.arr [])
        let n ← pyLen anime_list
        let count ← pyGet data "count" (.num n)
        let listing ← format_anime_list anime_list
        .ok ("🎙️ **Dubbed Anime** (Page " ++ toString page ++ ", " ++ pyStr count
          ++ " results)\n" ++ eqBar ++ "\n" ++ listing)

/-- Validation + request of `get_anime_by_genre` (source lines 430-437):
lower-case, strip, then membership in `AVAILABLE_GENRES`. -/
def get_anime_by_genre_plan (genre : String) (page : Int) : Except String Request :=
  let genre_lower := trimS (lowS genre)
  if AVAILABLE_GENRES.contains genre_lower = false then
    .error ("Invalid genre '" ++ genre ++ "'. Available genres: " ++ joinComma AVAILABLE_GENRES)
  else
    .ok ⟨"/api/genre/" ++ genre_lower, [("page", .i page)]⟩

/-- Requests issued by `get_anime_by_genre`: none when validation fails. -/
def get_anime_by_genre_requests (genre : String) (page : Int) : List Request :=
  match get_anime_by_genre_plan genre page with
  | .error _ => []
  | .ok r => [r]

/-- The `get_anime_by_genre` (source lines 414-449). -/
def get_anime_by_genre (genre : String) (page : Int) (u : Upstream) : Except String String :=
  match get_anime_by_genre_plan genre page with
  | .error msg => .ok msg
  | .ok _ =>
    match make_api_request u with
    | none => .ok ("Unable to fetch anime for genre '" ++ genre ++ "'. Please try again later.")
    | some data => do
        let ok ← body_success data
        if ok = false then
          .ok ("Unable to fetch anime for genre '" ++ genre ++ "'. Please try again later.")
        else do
          let anime_list ← pyGet data "data" (.arr [])
          let n ← pyLen anime_list
          let count ← pyGet data "count" (.num n)
          let listing ← format_anime_list anime_list
          .ok ("🏷️ **" ++ pyTitle genre ++ " Anime** (Page " ++ toString page ++ ", "
            ++ pyStr count ++ " results)\n" ++ eqBar ++ "\n" ++ listing)

/-- Validation + request of `get_anime_by_type` (source lines 464-471). -/
def get_anime_by_type_plan (anime_type : String) (page : Int) : Except String Request :=
  let type_lower := trimS (lowS anime_type)
  if AVAILABLE_TYPES.contains type_lower = false then
    .error ("Invalid type '" ++ anime_type ++ "'. Available types: " ++ joinComma AVAILABLE_TYPES)
  else
    .ok ⟨"/api/type/" ++ type_lower, [("page", .i page)]⟩

/-- Requests issued by `get_anime_by_type`: none when validation fails. -/
def get_anime_by_type_requests (anime_type : String) (page : Int) : List Request :=
  match get_anime_by_type_plan anime_type page with
  | .error _ => []
  | .ok r => [r]

/-- The `get_anime_by_type` (source lines 453-483). -/
def get_anime_by_type (anime_type : String) (page : Int) (u : Upstream) : Except String String :=
  match get_anime_by_type_plan anime_type page with
  | .error msg => .ok msg
  | .ok _ =>
    match make_api_request u with
    | none => .ok ("Unable to fetch anime for type '" ++ anime_type ++ "'. Please try again later.")
    | some data => do
        let ok ← body_success data
        if ok = false then
          .ok ("Unable to fetch anime for type '" ++ anime_type ++ "'. Please try again later.")
        else do
          let anime_list ← pyGet data "data" (.arr [])
          let n ← pyLen anime_list
          let count ← pyGet data "count" (.num n)
          let listing ← format_anime_list anime_list
          .ok ("📁 **" ++ upS anime_type ++ " Anime** (Page " ++ toString page ++ ", "
            ++ pyStr count ++ " results)\n" ++ eqBar ++ "\n" ++ listing)

/-- The `get_anime_details` (source lines 487-505). -/
def get_anime_details (slug : String) (u : Upstream) : Except String String :=
  match make_api_request u with
  | none =>
      .ok ("Unable to fetch details for anime '" ++ slug ++ "'. Please check the slug and try again.")
  | some data => do
      let ok ← body_success data
      if ok = false then
        .ok ("Unable to fetch details for anime '" ++ slug ++ "'. Please check the slug and try again.")
      else
        format_anime_details data

/-- The `get_anime_episodes` (source lines 509-534). -/
def get_anime_episodes (slug : String) (u : Upstream) : Except String String :=
  match make_api_request u with
  | none =>
      .ok ("Unable to fetch episodes for anime '" ++ slug ++ "'. Please check the slug and try again.")
  | some data => do
      let ok ← body_success data
      if ok = false then
        .ok ("Unable to fetch episodes for anime '" ++ slug ++ "'. Please check the slug and try again.")
      else do
        let episodes ← pyGet data "data" (.arr [])
        let n ← pyLen episodes
        let count ← pyGet data "count" (.num n)
        let listing ← format_episode_list episodes
        .ok ("📺 **Episodes for " ++ slug ++ "** (" ++ pyStr count ++ " total episodes)\n"
          ++ eqBar ++ "\n" ++ listing)

/-- Episode search loop of `get_episode_info` (source lines 559-563). -/
def find_episode : List JVal → Int → Except String (Option JVal)
  | [], _ => .ok none
  | e :: es, k => do
      let v ← pyGet e "number" .null
      if pyEqInt v k then .ok (some e) else find_episode es k

/-- The `get_episode_info` (source lines 538-583). -/
def get_episode_info (slug : String) (episode_number : Int) (u : Upstream) :
    Except String String :=
  match make_api_request u with
  | none =>
      .ok ("Unable to fetch episodes for anime '" ++ slug ++ "'. Please check the slug and try again.")
  | some data => do
      let ok ← body_success data
      if ok = false then
        .ok ("Unable to fetch episodes for anime '" ++ slug ++ "'. Please check the slug and try again.")
      else do
        let episodes ← pyGet data "data" (.arr [])
        let eps ← pyIter episodes
        let found ← find_episode eps episode_number
        match found with
        | none => do
            let n ← pyLen episodes
            .ok ("Episode " ++ toString episode_number ++ " not found for '" ++ slug
              ++ "'. This anime has " ++ toString n ++ " episodes (1-" ++ toString n ++ ").")
        | some episode => do
            let title ← pyGet episode "title" (.str "N/A")
            let jt ← pyGet episode "japanese_title" (.str "")
            let url ← pyGet episode "url" (.str "N/A")
            let ep_id ← pyGet episode "id" (.str "N/A")
            let fillerV ← pyGet episode "is_filler" (.bool false)
            let is_filler := if truthy fillerV then "Yes 🔸" else "No"
            .ok ("\n🎬 **" ++ slug ++ " - Episode " ++ toString episode_number
              ++ "**\n\n📺 **Title:** " ++ pyStr title
              ++ "\n🇯🇵 **Japanese Title:** " ++ (if truthy jt then pyStr jt else "N/A")
              ++ "\n📎 **Page:** " ++ pyStr url
              ++ "\n🆔 **ID:** " ++ pyStr ep_id
              ++ "\n🔸 **Is Filler:** " ++ is_filler ++ "\n")

/-- Validation + request of `get_anime_az_list` (source lines 598-608):
a single alphabetic character or the token `other`. -/
def get_anime_az_list_plan (letter : String) (page : Int) : Except String Request :=
  let letter_upper := trimS (upS letter)
  if letter_upper ≠ "OTHER"
      && !(letter_upper.data.length == 1 && letter_upper.data.all Char.isAlpha
            && !letter_upper.data.isEmpty) then
    .error "Invalid letter. Please provide a single letter A-Z or 'other' for non-alphabetic titles."
  else
    let letter_param := if letter_upper = "OTHER" then lowS letter else letter_upper
    .ok ⟨"/api/az/" ++ letter_param, [("page", .i page)]⟩

/-- The `get_anime_az_list` (source lines 587-620). -/
def get_anime_az_list (letter : String) (page : Int) (u : Upstream) : Except String String :=
  match get_anime_az_list_plan letter page with
  | .error msg => .ok msg
  | .ok _ =>
    match make_api_request u with
    | none => .ok ("Unable to fetch anime for letter '" ++ letter ++ "'. Please try again later.")
    | some data => do
        let ok ← body_success data
        if ok = false then
          .ok ("Unable to fetch anime for letter '" ++ letter ++ "'. Please try again later.")
        else do
          let anime_list ← pyGet data "data" (.arr [])
          let n ← pyLen anime_list
          let count ← pyGet data "count" (.num n)
          let listing ← format_anime_list anime_list
          .ok ("🔤 **Anime Starting with '" ++ trimS (upS letter) ++ "'** (Page "
            ++ toString page ++ ", " ++ pyStr count ++ " results)\n" ++ eqBar ++ "\n" ++ listing)

/-- The `get_anime_by_producer` (source lines 624-650). -/
def get_anime_by_producer (producer_slug : String) (page : Int) (u : Upstream) :
    Except String String :=
  match make_api_request u with
  | none =>
      .ok ("Unable to fetch anime for producer '" ++ producer_slug
        ++ "'. Please check the producer slug and try again.")
  | some data => do
      let ok ← body_success data
      if ok = false then
        .ok ("Unable to fetch anime for producer '" ++ producer_slug
          ++ "'. Please check the producer slug and try again.")
      else do
        let anime_list ← pyGet data "data" (.arr [])
        let n ← pyLen anime_list
        let count ← pyGet data "count" (.num n)
        let listing ← format_anime_list anime_list
        .ok ("🏢 **Anime by " ++ pyTitle (replaceChar '-' ' ' producer_slug) ++ "** (Page "
          ++ toString page ++ ", " ++ pyStr count ++ " results)\n" ++ eqBar ++ "\n" ++ listing)

/-- The `check_api_health` (source lines 752-766): only distinguishes a reachable
from an unreachable API; the body content — `success` flag included — is
never inspected. -/
def check_api_health (u : Upstream) : Except String String :=
  match make_api_request u with
  | some _ => .ok "✅ HiAnime API is healthy and responding!"
  | none => .ok "❌ HiAnime API is not responding. Please try again later."

/-! ### `filter_anime` (source lines 654-748)

The Python function is a flat sequence of `if <arg>:` blocks, each validating
one argument (early-returning its error text) and extending `params` and
`filters_applied`.  We transcribe it as one helper per block, chained in
source order: type → status → rated → score → season → language → genres →
sort.  Note: every check here uses `.lower()` only — no `.strip()` — and the
`genres` block performs no validation at all. -/

/-- Arguments of `filter_anime`; `none` and the empty string are both falsy,
as for the Python `Optional[str]` parameters. -/
structure FilterArgs where
  anime_type : Option String := none
  status : Option String := none
  rated : Option String := none
  score : Option Int := none
  season : Option String := none
  language : Option String := none
  genres : Option String := none
  sort : Option String := none
  page : Int := 1

/-- The `filter_anime`, `if sort:` block (source lines 726-730). -/
def filter_plan_sort (a : FilterArgs) (params : List (String × PV)) (fl : List String) :
    Except String (Request × List String) :=
  if optTruthy a.sort then
    let t := a.sort.getD ""
    if AVAILABLE_SORT_OPTIONS.contains (lowS t) = false then
      .error ("Invalid sort '" ++ t ++ "'. Available: " ++ joinComma AVAILABLE_SORT_OPTIONS)
    else .ok (⟨"/api/filter", params ++ [("sort", .s (lowS t))]⟩, fl ++ ["Sort: " ++ t])
  else .ok (⟨"/api/filter", params⟩, fl)

/-- The `filter_anime`, `if genres:` block (source lines 722-724): the genres
string is lower-cased and forwarded with no vocabulary check. -/
def filter_plan_genres (a : FilterArgs) (params : List (String × PV)) (fl : List String) :
    Except String (Request × List String) :=
  if optTruthy a.genres then
    let g := a.genres.getD ""
    filter_plan_sort a (params ++ [("genres", .s (lowS g))]) (fl ++ ["Genres: " ++ g])
  else filter_plan_sort a params fl

/-- The `filter_anime`, `if language:` block (source lines 716-720). -/
def filter_plan_language (a : FilterArgs) (params : List (String × PV)) (fl : List String) :
    Except String (Request × List String) :=
  if optTruthy a.language then
    let t := a.language.getD ""
    if ["sub", "dub"].contains (lowS t) = false then
      .error "Invalid language. Available: sub, dub"
    else filter_plan_genres a (params ++ [("language", .s (lowS t))]) (fl ++ ["Language: " ++ t])
  else filter_plan_genres a params fl

/-- The `filter_anime`, `if season:` block (source lines 710-714). -/
def filter_plan_season (a : FilterArgs) (params : List (String × PV)) (fl : List String) :
    Except String (Request × List String) :=
  if optTruthy a.season then
    let t := a.season.getD ""
    if AVAILABLE_SEASONS.contains (lowS t) = false then
      .error ("Invalid season '" ++ t ++ "'. Available: " ++ joinComma AVAILABLE_SEASONS)
    else filter_plan_language a (params ++ [("season", .s (lowS t))]) (fl ++ ["Season: " ++ t])
  else filter_plan_language a params fl

/-- The `filter_anime`, `if score is not None:` block (source lines 704-708). -/
def filter_plan_score (a : FilterArgs) (params : List (String × PV)) (fl : List String) :
    Except String (Request × List String) :=
  match a.score with
  | some sc =>
      if 1 ≤ sc ∧ sc ≤ 10 then
        filter_plan_season a (params ++ [("score", .i sc)]) (fl ++ ["Min Score: " ++ toString sc])
      else .error "Score must be between 1 and 10."
  | none => filter_plan_season a params fl

/-- The `filter_anime`, `if rated:` block (source lines 698-702). -/
def filter_plan_rated (a : FilterArgs) (params : List (String × PV)) (fl : List String) :
    Except String (Request × List String) :=
  if optTruthy a.rated then
    let t := a.rated.getD ""
    if AVAILABLE_RATINGS.contains (lowS t) = false then
      .error ("Invalid rating '" ++ t ++ "'. Available: " ++ joinComma AVAILABLE_RATINGS)
    else filter_plan_score a (params ++ [("rated", .s (lowS t))]) (fl ++ ["Rated: " ++ t])
  else filter_plan_score a params fl

/-- The `filter_anime`, `if status:` block (source lines 692-696). -/
def filter_plan_status (a : FilterArgs) (params : List (String × PV)) (fl : List String) :
    Except String (Request × List String) :=
  if optTruthy a.status then
    let t := a.status.getD ""
    if AVAILABLE_STATUSES.contains (lowS t) = false then
      .error ("Invalid status '" ++ t ++ "'. Available: " ++ joinComma AVAILABLE_STATUSES)
    else filter_plan_rated a (params ++ [("status", .s (lowS t))]) (fl ++ ["Status: " ++ t])
  else filter_plan_rated a params fl

/-- The `filter_anime`, `if anime_type:` block (source lines 686-690). -/
def filter_plan_type (a : FilterArgs) (params : List (String × PV)) (fl : List String) :
    Except String (Request × List String) :=
  if optTruthy a.anime_type then
    let t := a.anime_type.getD ""
    if AVAILABLE_TYPES.contains (lowS t) = false then
      .error ("Invalid type '" ++ t ++ "'. Available: " ++ joinComma AVAILABLE_TYPES)
    else filter_plan_status a (params ++ [("type", .s (lowS t))]) (fl ++ ["Type: " ++ t])
  else filter_plan_status a params fl

/-- Validation + request of `filter_anime`: the validation error text, or the
request together with the `filters_applied` summary entries. -/
def filter_anime_plan (a : FilterArgs) : Except String (Request × List String) :=
  filter_plan_type a [("page", .i a.page)] []

/-- Requests issued by `filter_anime`: none when validation fails. -/
def filter_anime_requests (a : FilterArgs) : List Request :=
  match filter_anime_plan a with
  | .error _ => []
  | .ok (r, _) => [r]

/-- The `filter_anime` (source lines 654-748), given the upstream outcome. -/
def filter_anime (a : FilterArgs) (u : Upstream) : Except String String :=
  match filter_anime_plan a with
  | .error msg => .ok msg
  | .ok (_, filters_applied) =>
    match make_api_request u with
    | none => .ok "Unable to filter anime. Please try again later."
    | some data => do
        let ok ← body_success data
        if ok = false then .ok "Unable to filter anime. Please try again later."
        else do
          let anime_list ← pyGet data "data" (.arr [])
          let n ← pyLen anime_list
          let count ← pyGet data "count" (.num n)
          let listing ← format_anime_list anime_list
          let filter_summary :=
            if filters_applied.isEmpty then "No filters" else joinComma filters_applied
          .ok ("🔍 **Filtered Anime** (" ++ filter_summary ++ ")\nPage " ++ toString a.page
            ++ ", " ++ pyStr count ++ " results\n" ++ eqBar ++ "\n" ++ listing)

/-! ### MAL GET tools -/

/-- Request of `mal_search` (source lines 985-987): the limit is clamped by
`max(1, min(100, limit))` before the request is built. -/
def mal_search_request (query : String) (limit : Int) : Request :=
  ⟨"/api/mal/search", [("query", .s query), ("limit", .i (max 1 (min 100 limit)))]⟩

/-- The `mal_search` (source lines 971-1001). -/
def mal_search (query : String) (limit : Int) (u : Upstream) : Except String String :=
  match make_api_request u with
  | none => .ok ("Unable to search MAL for '" ++ query ++ "'. Please try again later.")
  | some data => do
      let ok ← body_success data
      if ok = false then
        .ok ("Unable to search MAL for '" ++ query ++ "'. Please try again later.")
      else do
        let anime_list ← pyGet data "data" (.arr [])
        if truthy anime_list = false then
          .ok ("No anime found on MAL for '" ++ query ++ "'.")
        else do
          let n ← pyLen anime_list
          let listing ← format_mal_anime_list anime_list
          .ok ("🔍 **MAL Search Results for '" ++ query ++ "'** (" ++ toString n
            ++ " results)\n" ++ eqBar ++ "\n" ++ listing)

/-- The `mal_anime_details` (source lines 1005-1023). -/
def mal_anime_details (mal_id : Int) (u : Upstream) : Except String String :=
  match make_api_request u with
  | none =>
      .ok ("Unable to fetch MAL details for anime ID '" ++ toString mal_id
        ++ "'. Please check the ID and try again.")
  | some data => do
      let ok ← body_success data
      if ok = false then
        .ok ("Unable to fetch MAL details for anime ID '" ++ toString mal_id
          ++ "'. Please check the ID and try again.")
      else do
        let anime_data ← pyGet data "data" (.obj [])
        format_mal_anime_details anime_data

/-- Validation + request of `mal_ranking` (source lines 1045-1055): the
ranking type is lower-cased and stripped, checked against
`MAL_RANKING_TYPES`, and the limit clamped into `[1, 100]`. -/
def mal_ranking_plan (ranking_type : String) (limit : Int) : Except String Request :=
  let ranking_lower := trimS (lowS ranking_type)
  if MAL_RANKING_TYPES.contains ranking_lower = false then
    .error ("Invalid ranking type '" ++ ranking_type ++ "'. Available types: "
      ++ joinComma MAL_RANKING_TYPES)
  else
    .ok ⟨"/api/mal/ranking", [("type", .s ranking_lower), ("limit", .i (max 1 (min 100 limit)))]⟩

/-- Requests issued by `mal_ranking`: none when validation fails. -/
def mal_ranking_requests (ranking_type : String) (limit : Int) : List Request :=
  match mal_ranking_plan ranking_type limit with
  | .error _ => []
  | .ok r => [r]

/-- The `ranking_titles` lookup of `mal_ranking` (source lines 1066-1076). -/
def ranking_title (ranking_lower : String) : String :=
  (dGet [("all", .str "Top Anime Series"), ("airing", .str "Top Airing Anime"),
    ("upcoming", .str "Top Upcoming Anime"), ("tv", .str "Top TV Series"),
    ("movie", .str "Top Movies"), ("bypopularity", .str "Most Popular"),
    ("favorite", .str "Most Favorited")] ranking_lower
   |>.map pyStr |>.getD "Rankings")

/-- The `mal_ranking` (source lines 1027-1081). -/
def mal_ranking (ranking_type : String) (limit : Int) (u : Upstream) : Except String String :=
  match mal_ranking_plan ranking_type limit with
  | .error msg => .ok msg
  | .ok _ =>
    match make_api_request u with
    | none => .ok "Unable to fetch MAL rankings. Please try again later."
    | some data => do
        let ok ← body_success data
        if ok = false then .ok "Unable to fetch MAL rankings. Please try again later."
        else do
          let anime_list ← pyGet data "data" (.arr [])
          if truthy anime_list = false then .ok "No rankings available."
          else do
            let n ← pyLen anime_list
            let listing ← format_mal_anime_list anime_list
            .ok ("🏆 **MAL " ++ ranking_title (trimS (lowS ranking_type)) ++ "** (Top "
              ++ toString n ++ ")\n" ++ eqBar ++ "\n" ++ listing)

/-- Validation + request of `mal_seasonal` (source lines 1101-1115). -/
def mal_seasonal_plan (year : Int) (season : String) (limit : Int) : Except String Request :=
  let season_lower := trimS (lowS season)
  if AVAILABLE_SEASONS.contains season_lower = false then
    .error ("Invalid season '" ++ season ++ "'. Available seasons: " ++ joinComma AVAILABLE_SEASONS)
  else
    .ok ⟨"/api/mal/seasonal",
      [("year", .i year), ("season", .s season_lower), ("limit", .i (max 1 (min 100 limit)))]⟩

/-- Requests issued by `mal_seasonal`: none when validation fails. -/
def mal_seasonal_requests (year : Int) (season : String) (limit : Int) : List Request :=
  match mal_seasonal_plan year season limit with
  | .error _ => []
  | .ok r => [r]

/-- The `mal_seasonal` (source lines 1085-1129). -/
def mal_seasonal (year : Int) (season : String) (limit : Int) (u : Upstream) :
    Except String String :=
  match mal_seasonal_plan year season limit with
  | .error msg => .ok msg
  | .ok _ =>
    match make_api_request u with
    | none => .ok "Unable to fetch MAL seasonal anime. Please try again later."
    | some data => do
        let ok ← body_success data
        if ok = false then .ok "Unable to fetch MAL seasonal anime. Please try again later."
        else do
          let anime_list ← pyGet data "data" (.arr [])
          if truthy anime_list = false then
            .ok ("No anime found for " ++ pyTitle season ++ " " ++ toString year ++ ".")
          else do
            let n ← pyLen anime_list
            let listing ← format_mal_anime_list anime_list
            .ok ("🍂 **MAL " ++ pyTitle season ++ " " ++ toString year ++ " Anime** ("
              ++ toString n ++ " results)\n" ++ eqBar ++ "\n" ++ listing)

/-! ### Combined search -/

/-- Request of `combined_search` (source lines 1152-1157): ONE request to the
combined endpoint, with the limit clamped into `[1, 20]`. -/
def combined_search_request (query : String) (limit : Int) : Request :=
  ⟨"/api/combined/search", [("query", .s query), ("limit", .i (max 1 (min 20 limit)))]⟩

/-- Requests issued by `combined_search`: the body awaits exactly one
`make_api_request` (source line 1157). -/
def combined_search_requests (query : String) (limit : Int) : List Request :=
  [combined_search_request query limit]

/-- The `combined_search` (source lines 1137-1183). -/
def combined_search (query : String) (limit : Int) (u : Upstream) : Except String String :=
  match make_api_request u with
  | none =>
      .ok ("Unable to perform combined search for '" ++ query ++ "'. Please try again later.")
  | some data => do
      let ok ← body_success data
      if ok = false then
        .ok ("Unable to perform combined search for '" ++ query ++ "'. Please try again later.")
      else do
        let result_data ← pyGet data "data" (.obj [])
        let hianime_results ← pyGet result_data "hianime" (.arr [])
        let mal_results ← pyGet result_data "mal" (.arr [])
        let r := "🔍 **Combined Search Results for '" ++ query ++ "'**\n" ++ eqBar ++ "\n"
        let r := r ++ "\n📺 **HiAnime Results:**\n"
        let r ← if truthy hianime_results then do
            let s ← format_anime_list hianime_results
            Except.ok (r ++ s)
          else .ok (r ++ "   No results from HiAnime.\n")
        let r := r ++ "\n\n📊 **MyAnimeList Results:**\n"
        let r ← if truthy mal_results then do
            let s ← format_mal_anime_list mal_results
            Except.ok (r ++ s)
          else .ok (r ++ "   No results from MAL.\n")
        .ok r

/-! ### OAuth / MAL user POST tools -/

/-- Payload of `mal_get_auth_url` (source lines 1212-1217). -/
def mal_get_auth_url_payload (client_id redirect_uri : String) (client_secret : Option String) :
    List (String × PV) :=
  [("client_id", .s client_id), ("redirect_uri", .s redirect_uri)]
    ++ (if optTruthy client_secret then [("client_secret", PV.s (client_secret.getD ""))] else [])

/-- The `mal_get_auth_url` (source lines 1191-1256).  The `except Exception`
branch returns a text that interpolates `str(e)`. -/
def mal_get_auth_url (client_id redirect_uri : String) (client_secret : Option String)
    (o : PostOutcome) : Except String String :=
  match o with
  | .exn e => .ok ("Unable to get authorization URL. Error: " ++ e)
  | .ok data => do
      let ok ← body_success data
      if ok = false then
        .ok "Unable to get authorization URL. Please check your credentials and try again."
      else do
        let auth_data ← pyGet data "data" (.obj [])
        let auth_url ← pyGet auth_data "auth_url" (.str "")
        let code_verifier ← pyGet auth_data "code_verifier" (.str "")
        let state ← pyGet auth_data "state" (.str "")
        .ok ("\n🔐 **MAL OAuth2 Authorization**\n\n📎 **Authorization URL:**\n"
          ++ pyStr auth_url
          ++ "\n\n⚠️ **IMPORTANT - Save these values:**\n   - Code Verifier: `"
          ++ pyStr code_verifier ++ "`\n   - State: `" ++ pyStr state
          ++ "`\n\n📝 **Next Steps:**\n1. Open the authorization URL in your browser\n2. Login to MyAnimeList and authorize the app\n3. After redirect, copy the 'code' parameter from the URL\n4. Use 'mal_exchange_token' with the code and code_verifier to get your access token\n")

/-- Payload of `mal_exchange_token` (source lines 1284-1291). -/
def mal_exchange_token_payload (client_id code code_verifier redirect_uri : String)
    (client_secret : Option String) : List (String × PV) :=
  [("client_id", .s client_id), ("code", .s code), ("code_verifier", .s code_verifier),
    ("redirect_uri", .s redirect_uri)]
    ++ (if optTruthy client_secret then [("client_secret", PV.s (client_secret.getD ""))] else [])

/-- The `mal_exchange_token` (source lines 1260-1332). -/
def mal_exchange_token (client_id code code_verifier redirect_uri : String)
    (client_secret : Option String) (o : PostOutcome) : Except String String :=
  match o with
  | .exn e => .ok ("Unable to exchange token. Error: " ++ e)
  | .ok data => do
      let ok ← body_success data
      if ok = false then
        .ok "Unable to exchange token. Please check your credentials and try again."
      else do
        let token_data ← pyGet data "data" (.obj [])
        let access_token ← pyGet token_data "access_token" (.str "")
        let refresh_token ← pyGet token_data "refresh_token" (.str "")
        let expires_in ← pyGet token_data "expires_in" (.str "")
        let token_type ← pyGet token_data "token_type" (.str "Bearer")
        .ok ("\n✅ **MAL Token Exchange Successful!**\n\n🔑 **Access Token:**\n`"
          ++ pyStr access_token ++ "`\n\n🔄 **Refresh Token:**\n`" ++ pyStr refresh_token
          ++ "`\n\n⏰ **Expires In:** " ++ pyStr expires_in ++ " seconds\n🏷️ **Token Type:** "
          ++ pyStr token_type
          ++ "\n\n⚠️ **IMPORTANT:**\n- Save these tokens securely!\n- Use the access_token with 'mal_user_animelist' and 'mal_user_profile'\n- Use the refresh_token to get a new access_token when it expires\n")

/-- Validation + payload of `mal_user_animelist` (source lines 1362-1373):
the status filter is lower-cased (no strip) and checked against
`MAL_LIST_STATUSES`; the limit is forwarded UNCHANGED — no clamping. -/
def mal_user_animelist_plan (client_id access_token : String) (status : Option String)
    (limit : Int) : Except String (List (String × PV)) :=
  if optTruthy status && MAL_LIST_STATUSES.contains (lowS (status.getD "")) = false then
    .error ("Invalid status '" ++ status.getD "" ++ "'. Available statuses: "
      ++ joinComma MAL_LIST_STATUSES)
  else
    .ok ([("client_id", .s client_id), ("access_token", .s access_token), ("limit", .i limit)]
      ++ (if optTruthy status then [("status", PV.s (lowS (status.getD "")))] else []))

/-- Requests issued by `mal_user_animelist`: none when validation fails. -/
def mal_user_animelist_requests (client_id access_token : String) (status : Option String)
    (limit : Int) : List Request :=
  match mal_user_animelist_plan client_id access_token status limit with
  | .error _ => []
  | .ok payload => [⟨"/api/mal/user/animelist", payload⟩]

/-- The `mal_user_animelist` (source lines 1336-1403). -/
def mal_user_animelist (client_id access_token : String) (status : Option String) (limit : Int)
    (o : PostOutcome) : Except String String :=
  match mal_user_animelist_plan client_id access_token status limit with
  | .error msg => .ok msg
  | .ok _ =>
    match o with
    | .exn e => .ok ("Unable to fetch anime list. Error: " ++ e)
    | .ok data => do
        let ok ← body_success data
        if ok = false then
          .ok "Unable to fetch anime list. Please check your credentials and try again."
        else do
          let anime_list ← pyGet data "data" (.arr [])
          if truthy anime_list = false then
            .ok ("No anime found in your list"
              ++ (if optTruthy status then " with status '" ++ status.getD "" ++ "'" else "")
              ++ ".")
          else do
            let n ← pyLen anime_list
            let listing ← format_mal_user_animelist anime_list
            let status_title :=
              if optTruthy status then pyTitle (replaceChar '_' ' ' (status.getD "")) else "All"
            .ok ("📚 **Your MAL Anime List** (" ++ status_title ++ ", " ++ toString n
              ++ " entries)\n" ++ eqBar ++ "\n" ++ listing)

/-- The `mal_user_profile` (source lines 1407-1488). -/
def mal_user_profile (client_id access_token : String) (o : PostOutcome) :
    Except String String :=
  match o with
  | .exn e => .ok ("Unable to fetch profile. Error: " ++ e)
  | .ok data => do
      let ok ← body_success data
      if ok = false then
        .ok "Unable to fetch profile. Please check your credentials and try again."
      else do
        let profile ← pyGet data "data" (.obj [])
        let username ← pyGet profile "name" (.str "Unknown")
        let user_id ← pyGet profile "id" (.str "N/A")
        let location ← pyGet profile "location" (.str "N/A")
        let joined ← pyGet profile "joined_at" (.str "N/A")
        let birthday ← pyGet profile "birthday" (.str "N/A")
        let anime_stats ← pyGet profile "anime_statistics" (.obj [])
        let num_watching ← pyGet anime_stats "num_items_watching" (.num 0)
        let num_completed ← pyGet anime_stats "num_items_completed" (.num 0)
        let num_on_hold ← pyGet anime_stats "num_items_on_hold" (.num 0)
        let num_dropped ← pyGet anime_stats "num_items_dropped" (.num 0)
        let num_plan_to_watch ← pyGet anime_stats "num_items_plan_to_watch" (.num 0)
        let total_entries ← pyGet anime_stats "num_items" (.num 0)
        let episodes_watched ← pyGet anime_stats "num_episodes" (.num 0)
        let mean_score ← pyGet anime_stats "mean_score" (.num 0)
        let days_watched ← pyGet anime_stats "num_days_watched" (.num 0)
        let ew ← pyFormatComma episodes_watched
        let dw ← pyFormat1f days_watched
        .ok ("\n👤 **MAL User Profile**\n\n📝 **Basic Information:**\n   - Username: "
          ++ pyStr username ++ "\n   - User ID: " ++ pyStr user_id
          ++ "\n   - Location: " ++ pyStr location ++ "\n   - Birthday: " ++ pyStr birthday
          ++ "\n   - Joined: " ++ pyStr joined
          ++ "\n\n📊 **Anime Statistics:**\n   - Total Entries: " ++ pyStr total_entries
          ++ "\n   - Episodes Watched: " ++ ew ++ "\n   - Days Watched: " ++ dw
          ++ "\n   - Mean Score: " ++ pyStr mean_score
          ++ "/10\n\n📈 **Status Breakdown:**\n   - 📺 Watching: " ++ pyStr num_watching
          ++ "\n   - ✅ Completed: " ++ pyStr num_completed
          ++ "\n   - ⏸️ On Hold: " ++ pyStr num_on_hold
          ++ "\n   - ❌ Dropped: " ++ pyStr num_dropped
          ++ "\n   - 📋 Plan to Watch: " ++ pyStr num_plan_to_watch
          ++ "\n\n🔗 **Profile URL:** https://myanimelist.net/profile/" ++ pyStr username ++ "\n")

/-! ### Helper lemmas -/

@[simp] theorem okE_bind {α β : Type} (a : α) (f : α → Except String β) :
    (Except.ok a >>= f) = f a := rfl

@[simp] theorem errE_bind {α β : Type} (e : String) (f : α → Except String β) :
    ((Except.error e : Except String α) >>= f) = Except.error e := rfl

theorem make_api_request_none {u : Upstream} (h : isFailureU u = true) :
    make_api_request u = none := by
  cases u <;> simp_all [isFailureU, make_api_request]

theorem body_success_false_of {fs : List (String × JVal)}
    (h : truthy ((dGet fs "success").getD .null) = false) :
    body_success (.obj fs) = .ok false := by
  unfold body_success
  split
  · rfl
  · simp [pyGet, h]

theorem contains_false_iff {l : List String} {x : String} : l.contains x = false ↔ x ∉ l := by
  simp

theorem contains_true_iff {l : List String} {x : String} : l.contains x = true ↔ x ∈ l := by
  simp

/-! ### Definitions written from the claims (for refinement comparisons) -/

/-- Amended slug-derivation chain, stated in the corrected spec order: the
explicit `slug` field if truthy; otherwise, when the item has a truthy `id`,
the last path segment of the URL before `?` if the URL is truthy, else the
raw `id`; when both `slug` and `id` are falsy the (defaulted, possibly empty)
`slug` value stands — the literal `N/A` is never reached. -/
def slug_chain_amended (item : List (String × JVal)) : Except String JVal :=
  let slug := (dGet item "slug").getD (.str "")
  let url := (dGet item "url").getD (.str "")
  if truthy slug then .ok slug
  else if truthy ((dGet item "id").getD .null) then
    if truthy url then do
      let u ← asStr url
      .ok (.str (urlSlug u))
    else .ok ((dGet item "id").getD .null)
  else .ok slug

/-- A successful combined-search body with the given per-provider result
lists, in the shape `combined_search` reads
(`data.hianime` / `data.mal`). -/
def combined_body (h m : JVal) : JVal :=
  .obj [("success", .bool true), ("data", .obj [("hianime", h), ("mal", m)])]

/-! ### Claim C1 -/

/-- C1: the claim says the detail renderers are total and never raise; in
fact `format_mal_anime_details` applied to a successful detail payload that
merely lacks `num_scoring_users` (here the object with only a title) raises
`ValueError`, because the `'N/A'` string default is pushed through the `:,`
thousands-separator format spec.  This contradicts the spec's
"normalization must never fail" contract, so the code is the bug. -/
theorem C1_mal_details_raises_on_missing_count_fields :
    format_mal_anime_details (.obj [("title", .str "Cowboy Bebop")])
      = .error "ValueError: Cannot specify ',' with 's'." := rfl

/-! ### Claim C5 -/

/-- C5 counterexample: an item with the claim's exact URL but no `slug` field
and no `id` derives the empty slug, not `one-piece-100` — the URL fallback
only fires when the item carries a truthy `id`. -/
theorem C5_counterexample_url_only_item_gets_empty_slug :
    derive_slug [("url", .str "https://site/one-piece-100?ref=search")] = .ok (.str "")
      ∧ ("" : String) ≠ "one-piece-100" :=
  ⟨rfl, by decide⟩

/-- C5 (amended): the slug chain is — explicit truthy `slug`; else, if the
item has a truthy `id`: last path segment of the URL before `?` when the URL
is truthy, else the raw `id`; else the defaulted `slug` value (so `N/A` is
never produced).  With an `id` present, the claim's example URL does derive
`one-piece-100`. -/
theorem C5_slug_derivation_amended :
    (∀ item, derive_slug item = slug_chain_amended item) ∧
    derive_slug [("url", .str "https://site/one-piece-100?ref=search"), ("id", .str "100")]
      = .ok (.str "one-piece-100") := by
  refine ⟨fun item => ?_, rfl⟩
  unfold derive_slug slug_chain_amended
  by_cases hs : truthy ((dGet item "slug").getD (.str ""))
  · simp [hs]
  · cases hid : dGet item "id" with
    | none => simp [hs, hid, truthy]
    | some v => by_cases hv : truthy v <;> simp [hs, hid, hv]

/-! ### Claim C2 -/

/-- C2 counterexample: the comma-separated `genres` argument of
`filter_anime` is NOT validated — the invalid value `xyzzy` is lower-cased,
put into the request, and the upstream request is issued. -/
theorem C2_counterexample_genres_filter_not_validated :
    filter_anime_plan { genres := some "xyzzy", page := 1 } =
      .ok (⟨"/api/filter", [("page", .i 1), ("genres", .s "xyzzy")]⟩, ["Genres: xyzzy"]) ∧
    filter_anime_requests { genres := some "xyzzy", page := 1 } =
      [⟨"/api/filter", [("page", .i 1), ("genres", .s "xyzzy")]⟩] :=
  ⟨rfl, rfl⟩

/-- C2 (amended): for every closed-vocabulary argument — genre, type,
status, rating, season, sort order, language, ranking type, list status —
a value whose normalized form is not in the vocabulary yields the
validation-error text listing exactly that vocabulary and no upstream
request; the comma-separated `genres` filter is the exception: it is
forwarded lower-cased with no validation. -/
theorem C2_vocabulary_validation_amended :
    (∀ g p, AVAILABLE_GENRES.contains (trimS (lowS g)) = false →
        get_anime_by_genre_plan g p =
          .error ("Invalid genre '" ++ g ++ "'. Available genres: "
            ++ joinComma AVAILABLE_GENRES)
          ∧ get_anime_by_genre_requests g p = []) ∧
    (∀ t p, AVAILABLE_TYPES.contains (trimS (lowS t)) = false →
        get_anime_by_type_plan t p =
          .error ("Invalid type '" ++ t ++ "'. Available types: "
            ++ joinComma AVAILABLE_TYPES)
          ∧ get_anime_by_type_requests t p = []) ∧
    (∀ rt l, MAL_RANKING_TYPES.contains (trimS (lowS rt)) = false →
        mal_ranking_plan rt l =
          .error ("Invalid ranking type '" ++ rt ++ "'. Available types: "
            ++ joinComma MAL_RANKING_TYPES)
          ∧ mal_ranking_requests rt l = []) ∧
    (∀ y s l, AVAILABLE_SEASONS.contains (trimS (lowS s)) = false →
        mal_seasonal_plan y s l =
          .error ("Invalid season '" ++ s ++ "'. Available seasons: "
            ++ joinComma AVAILABLE_SEASONS)
          ∧ mal_seasonal_requests y s l = []) ∧
    (∀ cid tok st l, st.data.isEmpty = false →
        MAL_LIST_STATUSES.contains (lowS st) = false →
        mal_user_animelist_plan cid tok (some st) l =
          .error ("Invalid status '" ++ st ++ "'. Available statuses: "
            ++ joinComma MAL_LIST_STATUSES)
          ∧ mal_user_animelist_requests cid tok (some st) l = []) ∧
    (∀ t p, t.data.isEmpty = false → AVAILABLE_TYPES.contains (lowS t) = false →
        filter_anime_plan { anime_type := some t, page := p } =
          .error ("Invalid type '" ++ t ++ "'. Available: " ++ joinComma AVAILABLE_TYPES)
          ∧ filter_anime_requests { anime_type := some t, page := p } = []) ∧
    (∀ s p, s.data.isEmpty = false → AVAILABLE_STATUSES.contains (lowS s) = false →
        filter_anime_plan { status := some s, page := p } =
          .error ("Invalid status '" ++ s ++ "'. Available: " ++ joinComma AVAILABLE_STATUSES)) ∧
    (∀ r p, r.data.isEmpty = false → AVAILABLE_RATINGS.contains (lowS r) = false →
        filter_anime_plan { rated := some r, page := p } =
          .error ("Invalid rating '" ++ r ++ "'. Available: " ++ joinComma AVAILABLE_RATINGS)) ∧
    (∀ s p, s.data.isEmpty = false → AVAILABLE_SEASONS.contains (lowS s) = false →
        filter_anime_plan { season := some s, page := p } =
          .error ("Invalid season '" ++ s ++ "'. Available: " ++ joinComma AVAILABLE_SEASONS)) ∧
    (∀ lg p, lg.data.isEmpty = false →
        (["sub", "dub"] : List String).contains (lowS lg) = false →
        filter_anime_plan { language := some lg, page := p } =
          .error "Invalid language. Available: sub, dub") ∧
    (∀ s p, s.data.isEmpty = false → AVAILABLE_SORT_OPTIONS.contains (lowS s) = false →
        filter_anime_plan { sort := some s, page := p } =
          .error ("Invalid sort '" ++ s ++ "'. Available: "
            ++ joinComma AVAILABLE_SORT_OPTIONS)) ∧
    (∀ gs p, gs.data.isEmpty = false →
        filter_anime_plan { genres := some gs, page := p } =
          .ok (⟨"/api/filter", [("page", .i p), ("genres", .s (lowS gs))]⟩,
            ["Genres: " ++ gs])) := by
  refine ⟨?_, ?_, ?_, ?_, ?_, ?_, ?_, ?_, ?_, ?_, ?_, ?_⟩
  · intro g p h
    exact ⟨by simp [get_anime_by_genre_plan, contains_false_iff.mp h],
      by simp [get_anime_by_genre_requests, get_anime_by_genre_plan, contains_false_iff.mp h]⟩
  · intro t p h
    exact ⟨by simp [get_anime_by_type_plan, contains_false_iff.mp h],
      by simp [get_anime_by_type_requests, get_anime_by_type_plan, contains_false_iff.mp h]⟩
  · intro rt l h
    exact ⟨by simp [mal_ranking_plan, contains_false_iff.mp h],
      by simp [mal_ranking_requests, mal_ranking_plan, contains_false_iff.mp h]⟩
  · intro y s l h
    exact ⟨by simp [mal_seasonal_plan, contains_false_iff.mp h],
      by simp [mal_seasonal_requests, mal_seasonal_plan, contains_false_iff.mp h]⟩
  · intro cid tok st l ht h
    exact ⟨by simp [mal_user_animelist_plan, optTruthy, ht, contains_false_iff.mp h],
      by simp [mal_user_animelist_requests, mal_user_animelist_plan, optTruthy, ht,
        contains_false_iff.mp h]⟩
  · intro t p ht h
    refine ⟨?_, ?_⟩
    · simp [filter_anime_plan, filter_plan_type, optTruthy, ht, contains_false_iff.mp h]
    · simp [filter_anime_requests, filter_anime_plan, filter_plan_type, optTruthy, ht,
        contains_false_iff.mp h]
  · intro s p ht h
    simp [filter_anime_plan, filter_plan_type, filter_plan_status, optTruthy, ht,
      contains_false_iff.mp h]
  · intro r p ht h
    simp [filter_anime_plan, filter_plan_type, filter_plan_status, filter_plan_rated,
      optTruthy, ht, contains_false_iff.mp h]
  · intro s p ht h
    simp [filter_anime_plan, filter_plan_type, filter_plan_status, filter_plan_rated,
      filter_plan_score, filter_plan_season, optTruthy, ht, contains_false_iff.mp h]
  · intro lg p ht h
    simp [filter_anime_plan, filter_plan_type, filter_plan_status, filter_plan_rated,
      filter_plan_score, filter_plan_season, filter_plan_language, optTruthy, ht,
      contains_false_iff.mp h]
  · intro s p ht h
    simp [filter_anime_plan, filter_plan_type, filter_plan_status, filter_plan_rated,
      filter_plan_score, filter_plan_season, filter_plan_language, filter_plan_genres,
      filter_plan_sort, optTruthy, ht, contains_false_iff.mp h]
  · intro gs p ht
    simp [filter_anime_plan, filter_plan_type, filter_plan_status, filter_plan_rated,
      filter_plan_score, filter_plan_season, filter_plan_language, filter_plan_genres,
      filter_plan_sort, optTruthy, ht]

/-- C2 witness: the invalid genre `xyzzy` is rejected with the full genre
vocabulary, and an unknown language is rejected with the language
vocabulary. -/
theorem C2_vocabulary_validation_amended_witness :
    get_anime_by_genre_plan "xyzzy" 1 =
      .error ("Invalid genre 'xyzzy'. Available genres: " ++ joinComma AVAILABLE_GENRES) ∧
    filter_anime_plan { language := some "english", page := 1 } =
      .error "Invalid language. Available: sub, dub" :=
  ⟨(C2_vocabulary_validation_amended.1 "xyzzy" 1 (by decide)).1,
   C2_vocabulary_validation_amended.2.2.2.2.2.2.2.2.2.1 "english" 1 (by decide) (by decide)⟩

/-! ### Claim C8 -/

/-- C8 counterexample: `filter_anime` does not strip whitespace — the value
`"tv "`, which differs from the accepted `"tv"` only by a trailing blank
(and whose stripped form is in the vocabulary), is rejected. -/
theorem C8_counterexample_filter_rejects_untrimmed :
    filter_anime_plan { anime_type := some "tv ", page := 1 } =
      .error ("Invalid type 'tv '. Available: " ++ joinComma AVAILABLE_TYPES) ∧
    trimS (lowS "tv ") = "tv" ∧ AVAILABLE_TYPES.contains "tv" = true :=
  ⟨rfl, by decide, by decide⟩

/-- C8 (amended): validation lower-cases before the membership check
everywhere, and the normalized form is what is forwarded upstream; but only
`get_anime_by_genre`, `get_anime_by_type`, `mal_ranking` and `mal_seasonal`
also strip surrounding whitespace — `filter_anime`'s arguments and
`mal_user_animelist`'s status are lower-cased without trimming. -/
theorem C8_case_normalization_amended :
    (∀ g p, AVAILABLE_GENRES.contains (trimS (lowS g)) = true →
        get_anime_by_genre_plan g p =
          .ok ⟨"/api/genre/" ++ trimS (lowS g), [("page", .i p)]⟩) ∧
    (∀ t p, AVAILABLE_TYPES.contains (trimS (lowS t)) = true →
        get_anime_by_type_plan t p =
          .ok ⟨"/api/type/" ++ trimS (lowS t), [("page", .i p)]⟩) ∧
    (∀ lt p, (trimS (upS lt)).data.length = 1 →
        (trimS (upS lt)).data.all Char.isAlpha = true →
        get_anime_az_list_plan lt p =
          .ok ⟨"/api/az/" ++ trimS (upS lt), [("page", .i p)]⟩) ∧
    (∀ rt l, MAL_RANKING_TYPES.contains (trimS (lowS rt)) = true →
        mal_ranking_plan rt l = .ok ⟨"/api/mal/ranking",
          [("type", .s (trimS (lowS rt))), ("limit", .i (max 1 (min 100 l)))]⟩) ∧
    (∀ y s l, AVAILABLE_SEASONS.contains (trimS (lowS s)) = true →
        mal_seasonal_plan y s l = .ok ⟨"/api/mal/seasonal",
          [("year", .i y), ("season", .s (trimS (lowS s))),
            ("limit", .i (max 1 (min 100 l)))]⟩) ∧
    (∀ t p, t.data.isEmpty = false → AVAILABLE_TYPES.contains (lowS t) = true →
        filter_anime_plan { anime_type := some t, page := p } =
          .ok (⟨"/api/filter", [("page", .i p), ("type", .s (lowS t))]⟩, ["Type: " ++ t])) ∧
    (∀ s p, s.data.isEmpty = false → AVAILABLE_STATUSES.contains (lowS s) = true →
        filter_anime_plan { status := some s, page := p } =
          .ok (⟨"/api/filter", [("page", .i p), ("status", .s (lowS s))]⟩,
            ["Status: " ++ s])) ∧
    (∀ r p, r.data.isEmpty = false → AVAILABLE_RATINGS.contains (lowS r) = true →
        filter_anime_plan { rated := some r, page := p } =
          .ok (⟨"/api/filter", [("page", .i p), ("rated", .s (lowS r))]⟩, ["Rated: " ++ r])) ∧
    (∀ s p, s.data.isEmpty = false → AVAILABLE_SEASONS.contains (lowS s) = true →
        filter_anime_plan { season := some s, page := p } =
          .ok (⟨"/api/filter", [("page", .i p), ("season", .s (lowS s))]⟩,
            ["Season: " ++ s])) ∧
    (∀ lg p, lg.data.isEmpty = false →
        (["sub", "dub"] : List String).contains (lowS lg) = true →
        filter_anime_plan { language := some lg, page := p } =
          .ok (⟨"/api/filter", [("page", .i p), ("language", .s (lowS lg))]⟩,
            ["Language: " ++ lg])) ∧
    (∀ s p, s.data.isEmpty = false → AVAILABLE_SORT_OPTIONS.contains (lowS s) = true →
        filter_anime_plan { sort := some s, page := p } =
          .ok (⟨"/api/filter", [("page", .i p), ("sort", .s (lowS s))]⟩, ["Sort: " ++ s])) ∧
    (∀ cid tok st l, st.data.isEmpty = false →
        MAL_LIST_STATUSES.contains (lowS st) = true →
        mal_user_animelist_plan cid tok (some st) l =
          .ok [("client_id", .s cid), ("access_token", .s tok), ("limit", .i l),
            ("status", .s (lowS st))]) := by
  refine ⟨?_, ?_, ?_, ?_, ?_, ?_, ?_, ?_, ?_, ?_, ?_, ?_⟩
  · intro g p h
    simp [get_anime_by_genre_plan, contains_true_iff.mp h]
  · intro t p h
    simp [get_anime_by_type_plan, contains_true_iff.mp h]
  · intro lt p hlen halpha
    have hne : trimS (upS lt) ≠ "OTHER" := by
      intro he
      rw [he] at hlen
      exact absurd hlen (by decide)
    have hempty : (trimS (upS lt)).data.isEmpty = false := by
      cases hd : (trimS (upS lt)).data with
      | nil => rw [hd] at hlen; simp at hlen
      | cons a as => rfl
    simp [get_anime_az_list_plan, hlen, halpha, hne, hempty]
  · intro rt l h
    simp [mal_ranking_plan, contains_true_iff.mp h]
  · intro y s l h
    simp [mal_seasonal_plan, contains_true_iff.mp h]
  · intro t p ht h
    simp [filter_anime_plan, filter_plan_type, filter_plan_status, filter_plan_rated,
      filter_plan_score, filter_plan_season, filter_plan_language, filter_plan_genres,
      filter_plan_sort, optTruthy, ht, contains_true_iff.mp h]
  · intro s p ht h
    simp [filter_anime_plan, filter_plan_type, filter_plan_status, filter_plan_rated,
      filter_plan_score, filter_plan_season, filter_plan_language, filter_plan_genres,
      filter_plan_sort, optTruthy, ht, contains_true_iff.mp h]
  · intro r p ht h
    simp [filter_anime_plan, filter_plan_type, filter_plan_status, filter_plan_rated,
      filter_plan_score, filter_plan_season, filter_plan_language, filter_plan_genres,
      filter_plan_sort, optTruthy, ht, contains_true_iff.mp h]
  · intro s p ht h
    simp [filter_anime_plan, filter_plan_type, filter_plan_status, filter_plan_rated,
      filter_plan_score, filter_plan_season, filter_plan_language, filter_plan_genres,
      filter_plan_sort, optTruthy, ht, contains_true_iff.mp h]
  · intro lg p ht h
    simp [filter_anime_plan, filter_plan_type, filter_plan_status, filter_plan_rated,
      filter_plan_score, filter_plan_season, filter_plan_language, filter_plan_genres,
      filter_plan_sort, optTruthy, ht, contains_true_iff.mp h]
  · intro s p ht h
    simp [filter_anime_plan, filter_plan_type, filter_plan_status, filter_plan_rated,
      filter_plan_score, filter_plan_season, filter_plan_language, filter_plan_genres,
      filter_plan_sort, optTruthy, ht, contains_true_iff.mp h]
  · intro cid tok st l ht h
    simp [mal_user_animelist_plan, optTruthy, ht, contains_true_iff.mp h]

/-- C8 witness: `"  ACTION "` (case and surrounding blanks) is accepted by
the genre tool and normalized into the request path, `" x "` is accepted by
the A-Z tool after trimming and upper-casing, and `"TV"` (case only) is
accepted by `filter_anime` and forwarded lower-cased. -/
theorem C8_case_normalization_amended_witness :
    get_anime_by_genre_plan "  ACTION " 1 =
      .ok ⟨"/api/genre/" ++ trimS (lowS "  ACTION "), [("page", .i 1)]⟩ ∧
    get_anime_az_list_plan " x " 1 =
      .ok ⟨"/api/az/" ++ trimS (upS " x "), [("page", .i 1)]⟩ ∧
    filter_anime_plan { anime_type := some "TV", page := 1 } =
      .ok (⟨"/api/filter", [("page", .i 1), ("type", .s (lowS "TV"))]⟩, ["Type: " ++ "TV"]) :=
  ⟨C8_case_normalization_amended.1 "  ACTION " 1 (by decide),
   C8_case_normalization_amended.2.2.1 " x " 1 (by decide) (by decide),
   C8_case_normalization_amended.2.2.2.2.2.1 "TV" 1 (by decide) (by decide)⟩

/-! ### Claim C4 -/

/-- C4 counterexample: `mal_user_animelist` does not clamp its limit — the
out-of-range value 500 is forwarded unchanged in the POST payload. -/
theorem C4_counterexample_user_animelist_limit_unclamped :
    mal_user_animelist_plan "cid" "tok" none 500 =
      .ok [("client_id", .s "cid"), ("access_token", .s "tok"), ("limit", .i 500)] ∧
    ¬ ((500 : Int) ≤ 100) :=
  ⟨rfl, by decide⟩

/-- C4 (amended): `mal_search`, `mal_ranking` and `mal_seasonal` clamp their
limit into `[1, 100]` by `max 1 (min 100 ·)` (so `0 ↦ 1` and `500 ↦ 100`,
in-range values pass unchanged), and `combined_search` clamps into
`[1, 20]`; `mal_user_animelist` forwards its limit unchanged, with no
clamping. -/
theorem C4_limit_clamping_amended :
    (∀ q l, mal_search_request q l =
        ⟨"/api/mal/search", [("query", .s q), ("limit", .i (max 1 (min 100 l)))]⟩) ∧
    (∀ rt l, MAL_RANKING_TYPES.contains (trimS (lowS rt)) = true →
        mal_ranking_plan rt l = .ok ⟨"/api/mal/ranking",
          [("type", .s (trimS (lowS rt))), ("limit", .i (max 1 (min 100 l)))]⟩) ∧
    (∀ y s l, AVAILABLE_SEASONS.contains (trimS (lowS s)) = true →
        mal_seasonal_plan y s l = .ok ⟨"/api/mal/seasonal",
          [("year", .i y), ("season", .s (trimS (lowS s))),
            ("limit", .i (max 1 (min 100 l)))]⟩) ∧
    (∀ q l, combined_search_request q l =
        ⟨"/api/combined/search", [("query", .s q), ("limit", .i (max 1 (min 20 l)))]⟩) ∧
    (∀ l : Int, 1 ≤ max 1 (min 100 l) ∧ max 1 (min 100 l) ≤ 100 ∧
        (1 ≤ l → l ≤ 100 → max 1 (min 100 l) = l)) ∧
    (∀ l : Int, 1 ≤ max 1 (min 20 l) ∧ max 1 (min 20 l) ≤ 20 ∧
        (1 ≤ l → l ≤ 20 → max 1 (min 20 l) = l)) ∧
    (max 1 (min 100 (0 : Int)) = 1 ∧ max 1 (min 100 (500 : Int)) = 100) ∧
    (∀ cid tok l, mal_user_animelist_plan cid tok none l =
        .ok [("client_id", .s cid), ("access_token", .s tok), ("limit", .i l)]) := by
  refine ⟨fun q l => rfl, ?_, ?_, fun q l => rfl, ?_, ?_, ⟨by decide, by decide⟩, ?_⟩
  · intro rt l h
    simp [mal_ranking_plan, contains_true_iff.mp h]
  · intro y s l h
    simp [mal_seasonal_plan, contains_true_iff.mp h]
  · intro l
    refine ⟨le_max_left _ _, max_le (by norm_num) (min_le_left _ _), fun h1 h2 => ?_⟩
    rw [min_eq_right h2, max_eq_right h1]
  · intro l
    refine ⟨le_max_left _ _, max_le (by norm_num) (min_le_left _ _), fun h1 h2 => ?_⟩
    rw [min_eq_right h2, max_eq_right h1]
  · intro cid tok l
    rfl

/-- C4 witness: the ranking and seasonal limits 500 are clamped to 100 while
the user animelist limit 500 is not. -/
theorem C4_limit_clamping_amended_witness :
    mal_ranking_plan "all" 500 = .ok ⟨"/api/mal/ranking",
      [("type", .s (trimS (lowS "all"))), ("limit", .i (max 1 (min 100 500)))]⟩ ∧
    mal_seasonal_plan 2024 "fall" 500 = .ok ⟨"/api/mal/seasonal",
      [("year", .i 2024), ("season", .s (trimS (lowS "fall"))),
        ("limit", .i (max 1 (min 100 500)))]⟩ ∧
    max 1 (min 100 (500 : Int)) = 100 ∧
    mal_user_animelist_plan "cid" "tok" none 500 =
      .ok [("client_id", .s "cid"), ("access_token", .s "tok"), ("limit", .i 500)] :=
  ⟨C4_limit_clamping_amended.2.1 "all" 500 (by decide),
   C4_limit_clamping_amended.2.2.1 2024 "fall" 500 (by decide),
   C4_limit_clamping_amended.2.2.2.2.2.2.1.2,
   C4_limit_clamping_amended.2.2.2.2.2.2.2 "cid" "tok" 500⟩

/-! ### Claim C3 -/

/-- C3 counterexample: the OAuth POST tools interpolate `str(e)` into their
failure text, so a timeout and an HTTP status error produce different
caller-visible texts — the text does carry information distinguishing the
failure kind. -/
theorem C3_counterexample_post_error_text_distinguishes :
    mal_get_auth_url "cid" "http://localhost/callback" none (.exn "Request timed out")
      = .ok "Unable to get authorization URL. Error: Request timed out" ∧
    mal_get_auth_url "cid" "http://localhost/callback" none
        (.exn "Server error '500 Internal Server Error' for url 'https://example/api/mal/user/auth'")
      = .ok "Unable to get authorization URL. Error: Server error '500 Internal Server Error' for url 'https://example/api/mal/user/auth'" ∧
    ("Unable to get authorization URL. Error: Request timed out" : String)
      ≠ "Unable to get authorization URL. Error: Server error '500 Internal Server Error' for url 'https://example/api/mal/user/auth'" :=
  ⟨rfl, rfl, by decide⟩

/-- C3 (amended): for every GET tool all three upstream failure kinds
(timeout, non-2xx status, transport error) produce the same generic text for
that tool, and every tool — the OAuth/user POST tools included — returns a
text rather than letting the failure escape as an exception; but the POST
tools append the caught exception's own message to their text, which does
distinguish the failure kinds. -/
theorem C3_upstream_failure_uniformity_amended :
    (∀ kw p u, isFailureU u = true → search_anime kw p u =
        .ok ("Unable to search for '" ++ kw ++ "'. Please try again later.")) ∧
    (∀ p u, isFailureU u = true → get_popular_anime p u =
        .ok "Unable to fetch popular anime. Please try again later.") ∧
    (∀ p u, isFailureU u = true → get_top_airing_anime p u =
        .ok "Unable to fetch top airing anime. Please try again later.") ∧
    (∀ p u, isFailureU u = true → get_recently_updated_anime p u =
        .ok "Unable to fetch recently updated anime. Please try again later.") ∧
    (∀ p u, isFailureU u = true → get_completed_anime p u =
        .ok "Unable to fetch completed anime. Please try again later.") ∧
    (∀ p u, isFailureU u = true → get_subbed_anime p u =
        .ok "Unable to fetch subbed anime. Please try again later.") ∧
    (∀ p u, isFailureU u = true → get_dubbed_anime p u =
        .ok "Unable to fetch dubbed anime. Please try again later.") ∧
    (∀ g p r u, get_anime_by_genre_plan g p = .ok r → isFailureU u = true →
        get_anime_by_genre g p u =
          .ok ("Unable to fetch anime for genre '" ++ g ++ "'. Please try again later.")) ∧
    (∀ t p r u, get_anime_by_type_plan t p = .ok r → isFailureU u = true →
        get_anime_by_type t p u =
          .ok ("Unable to fetch anime for type '" ++ t ++ "'. Please try again later.")) ∧
    (∀ s u, isFailureU u = true → get_anime_details s u =
        .ok ("Unable to fetch details for anime '" ++ s
          ++ "'. Please check the slug and try again.")) ∧
    (∀ s u, isFailureU u = true → get_anime_episodes s u =
        .ok ("Unable to fetch episodes for anime '" ++ s
          ++ "'. Please check the slug and try again.")) ∧
    (∀ s n u, isFailureU u = true → get_episode_info s n u =
        .ok ("Unable to fetch episodes for anime '" ++ s
          ++ "'. Please check the slug and try again.")) ∧
    (∀ lt p r u, get_anime_az_list_plan lt p = .ok r → isFailureU u = true →
        get_anime_az_list lt p u =
          .ok ("Unable to fetch anime for letter '" ++ lt ++ "'. Please try again later.")) ∧
    (∀ ps p u, isFailureU u = true → get_anime_by_producer ps p u =
        .ok ("Unable to fetch anime for producer '" ++ ps
          ++ "'. Please check the producer slug and try again.")) ∧
    (∀ a r u, filter_anime_plan a = .ok r → isFailureU u = true →
        filter_anime a u = .ok "Unable to filter anime. Please try again later.") ∧
    (∀ q l u, isFailureU u = true → mal_search q l u =
        .ok ("Unable to search MAL for '" ++ q ++ "'. Please try again later.")) ∧
    (∀ i u, isFailureU u = true → mal_anime_details i u =
        .ok ("Unable to fetch MAL details for anime ID '" ++ toString i
          ++ "'. Please check the ID and try again.")) ∧
    (∀ rt l r u, mal_ranking_plan rt l = .ok r → isFailureU u = true →
        mal_ranking rt l u = .ok "Unable to fetch MAL rankings. Please try again later.") ∧
    (∀ y s l r u, mal_seasonal_plan y s l = .ok r → isFailureU u = true →
        mal_seasonal y s l u =
          .ok "Unable to fetch MAL seasonal anime. Please try again later.") ∧
    (∀ q l u, isFailureU u = true → combined_search q l u =
        .ok ("Unable to perform combined search for '" ++ q ++ "'. Please try again later.")) ∧
    (∀ u, isFailureU u = true → check_api_health u =
        .ok "❌ HiAnime API is not responding. Please try again later.") ∧
    (∀ cid ru cs e, mal_get_auth_url cid ru cs (.exn e) =
        .ok ("Unable to get authorization URL. Error: " ++ e)) ∧
    (∀ cid cd cv ru cs e, mal_exchange_token cid cd cv ru cs (.exn e) =
        .ok ("Unable to exchange token. Error: " ++ e)) ∧
    (∀ cid tok l e, mal_user_animelist cid tok none l (.exn e) =
        .ok ("Unable to fetch anime list. Error: " ++ e)) ∧
    (∀ cid tok e, mal_user_profile cid tok (.exn e) =
        .ok ("Unable to fetch profile. Error: " ++ e)) := by
  refine ⟨?_, ?_, ?_, ?_, ?_, ?_, ?_, ?_, ?_, ?_, ?_, ?_, ?_, ?_, ?_, ?_, ?_, ?_, ?_, ?_, ?_,
    ?_, ?_, ?_, ?_⟩
  · intro kw p u hu
    simp [search_anime, make_api_request_none hu]
  · intro p u hu
    simp [get_popular_anime, make_api_request_none hu]
  · intro p u hu
    simp [get_top_airing_anime, make_api_request_none hu]
  · intro p u hu
    simp [get_recently_updated_anime, make_api_request_none hu]
  · intro p u hu
    simp [get_completed_anime, make_api_request_none hu]
  · intro p u hu
    simp [get_subbed_anime, make_api_request_none hu]
  · intro p u hu
    simp [get_dubbed_anime, make_api_request_none hu]
  · intro g p r u hplan hu
    simp [get_anime_by_genre, hplan, make_api_request_none hu]
  · intro t p r u hplan hu
    simp [get_anime_by_type, hplan, make_api_request_none hu]
  · intro s u hu
    simp [get_anime_details, make_api_request_none hu]
  · intro s u hu
    simp [get_anime_episodes, make_api_request_none hu]
  · intro s n u hu
    simp [get_episode_info, make_api_request_none hu]
  · intro lt p r u hplan hu
    simp [get_anime_az_list, hplan, make_api_request_none hu]
  · intro ps p u hu
    simp [get_anime_by_producer, make_api_request_none hu]
  · intro a r u hplan hu
    simp [filter_anime, hplan, make_api_request_none hu]
  · intro q l u hu
    simp [mal_search, make_api_request_none hu]
  · intro i u hu
    simp [mal_anime_details, make_api_request_none hu]
  · intro rt l r u hplan hu
    simp [mal_ranking, hplan, make_api_request_none hu]
  · intro y s l r u hplan hu
    simp [mal_seasonal, hplan, make_api_request_none hu]
  · intro q l u hu
    simp [combined_search, make_api_request_none hu]
  · intro u hu
    simp [check_api_health, make_api_request_none hu]
  · intro cid ru cs e
    rfl
  · intro cid cd cv ru cs e
    rfl
  · intro cid tok l e
    rfl
  · intro cid tok e
    rfl

/-- C3 witness: a timeout and a 500 status on `search_anime` yield the same
generic text, and the auth-URL POST tool maps a concrete exception text into
its reply. -/
theorem C3_upstream_failure_uniformity_amended_witness :
    search_anime "naruto" 1 .timeout =
      .ok ("Unable to search for '" ++ "naruto" ++ "'. Please try again later.") ∧
    search_anime "naruto" 1 (.statusError 500) =
      .ok ("Unable to search for '" ++ "naruto" ++ "'. Please try again later.") ∧
    mal_get_auth_url "cid" "uri" none (.exn "boom") =
      .ok ("Unable to get authorization URL. Error: " ++ "boom") := by
  obtain ⟨h1, -, -, -, -, -, -, -, -, -, -, -, -, -, -, -, -, -, -, -, -, h22, -, -, -⟩ :=
    C3_upstream_failure_uniformity_amended
  exact ⟨h1 "naruto" 1 .timeout rfl, h1 "naruto" 1 (.statusError 500) rfl,
    h22 "cid" "uri" none "boom"⟩

/-! ### Claim C9 -/

/-- C9 counterexample: `check_api_health` returns the healthy text for an
HTTP-successful body whose `success` field is `false`, instead of its
unreachable-API failure text. -/
theorem C9_counterexample_health_ignores_success_flag :
    check_api_health (.ok (.obj [("success", .bool false)]))
      = .ok "✅ HiAnime API is healthy and responding!" ∧
    check_api_health .timeout
      = .ok "❌ HiAnime API is not responding. Please try again later." ∧
    ("✅ HiAnime API is healthy and responding!" : String)
      ≠ "❌ HiAnime API is not responding. Please try again later." :=
  ⟨rfl, rfl, by decide⟩

/-- C9 (amended): every GET tool that renders upstream data treats an
HTTP-successful object body whose `success` field is falsy (absent, `false`,
or otherwise falsy) exactly like a transport failure, answering the same
generic text and rendering none of the body's data; the OAuth/user POST
tools likewise render none of such a body's data, answering their fixed
credentials-failure text; the exception is `check_api_health`, which never
inspects the body and reports healthy for any JSON body. -/
theorem C9_success_flag_amended :
    (∀ kw p fs, truthy ((dGet fs "success").getD .null) = false →
        search_anime kw p (.ok (.obj fs)) = search_anime kw p .timeout) ∧
    (∀ p fs, truthy ((dGet fs "success").getD .null) = false →
        get_popular_anime p (.ok (.obj fs)) = get_popular_anime p .timeout) ∧
    (∀ p fs, truthy ((dGet fs "success").getD .null) = false →
        get_top_airing_anime p (.ok (.obj fs)) = get_top_airing_anime p .timeout) ∧
    (∀ p fs, truthy ((dGet fs "success").getD .null) = false →
        get_recently_updated_anime p (.ok (.obj fs)) = get_recently_updated_anime p .timeout) ∧
    (∀ p fs, truthy ((dGet fs "success").getD .null) = false →
        get_completed_anime p (.ok (.obj fs)) = get_completed_anime p .timeout) ∧
    (∀ p fs, truthy ((dGet fs "success").getD .null) = false →
        get_subbed_anime p (.ok (.obj fs)) = get_subbed_anime p .timeout) ∧
    (∀ p fs, truthy ((dGet fs "success").getD .null) = false →
        get_dubbed_anime p (.ok (.obj fs)) = get_dubbed_anime p .timeout) ∧
    (∀ g p fs, truthy ((dGet fs "success").getD .null) = false →
        get_anime_by_genre g p (.ok (.obj fs)) = get_anime_by_genre g p .timeout) ∧
    (∀ t p fs, truthy ((dGet fs "success").getD .null) = false →
        get_anime_by_type t p (.ok (.obj fs)) = get_anime_by_type t p .timeout) ∧
    (∀ s fs, truthy ((dGet fs "success").getD .null) = false →
        get_anime_details s (.ok (.obj fs)) = get_anime_details s .timeout) ∧
    (∀ s fs, truthy ((dGet fs "success").getD .null) = false →
        get_anime_episodes s (.ok (.obj fs)) = get_anime_episodes s .timeout) ∧
    (∀ s n fs, truthy ((dGet fs "success").getD .null) = false →
        get_episode_info s n (.ok (.obj fs)) = get_episode_info s n .timeout) ∧
    (∀ lt p fs, truthy ((dGet fs "success").getD .null) = false →
        get_anime_az_list lt p (.ok (.obj fs)) = get_anime_az_list lt p .timeout) ∧
    (∀ ps p fs, truthy ((dGet fs "success").getD .null) = false →
        get_anime_by_producer ps p (.ok (.obj fs)) = get_anime_by_producer ps p .timeout) ∧
    (∀ a fs, truthy ((dGet fs "success").getD .null) = false →
        filter_anime a (.ok (.obj fs)) = filter_anime a .timeout) ∧
    (∀ q l fs, truthy ((dGet fs "success").getD .null) = false →
        mal_search q l (.ok (.obj fs)) = mal_search q l .timeout) ∧
    (∀ i fs, truthy ((dGet fs "success").getD .null) = false →
        mal_anime_details i (.ok (.obj fs)) = mal_anime_details i .timeout) ∧
    (∀ rt l fs, truthy ((dGet fs "success").getD .null) = false →
        mal_ranking rt l (.ok (.obj fs)) = mal_ranking rt l .timeout) ∧
    (∀ y s l fs, truthy ((dGet fs "success").getD .null) = false →
        mal_seasonal y s l (.ok (.obj fs)) = mal_seasonal y s l .timeout) ∧
    (∀ q l fs, truthy ((dGet fs "success").getD .null) = false →
        combined_search q l (.ok (.obj fs)) = combined_search q l .timeout) ∧
    (∀ cid ru cs fs, truthy ((dGet fs "success").getD .null) = false →
        mal_get_auth_url cid ru cs (.ok (.obj fs)) =
          .ok "Unable to get authorization URL. Please check your credentials and try again.") ∧
    (∀ cid cd cv ru cs fs, truthy ((dGet fs "success").getD .null) = false →
        mal_exchange_token cid cd cv ru cs (.ok (.obj fs)) =
          .ok "Unable to exchange token. Please check your credentials and try again.") ∧
    (∀ cid tok l fs, truthy ((dGet fs "success").getD .null) = false →
        mal_user_animelist cid tok none l (.ok (.obj fs)) =
          .ok "Unable to fetch anime list. Please check your credentials and try again.") ∧
    (∀ cid tok fs, truthy ((dGet fs "success").getD .null) = false →
        mal_user_profile cid tok (.ok (.obj fs)) =
          .ok "Unable to fetch profile. Please check your credentials and try again.") ∧
    (∀ body, check_api_health (.ok body) = .ok "✅ HiAnime API is healthy and responding!") := by
  refine ⟨?_, ?_, ?_, ?_, ?_, ?_, ?_, ?_, ?_, ?_, ?_, ?_, ?_, ?_, ?_, ?_, ?_, ?_, ?_, ?_, ?_,
    ?_, ?_, ?_, fun body => rfl⟩
  · intro kw p fs h
    simp [search_anime, make_api_request, body_success_false_of h]
  · intro p fs h
    simp [get_popular_anime, make_api_request, body_success_false_of h]
  · intro p fs h
    simp [get_top_airing_anime, make_api_request, body_success_false_of h]
  · intro p fs h
    simp [get_recently_updated_anime, make_api_request, body_success_false_of h]
  · intro p fs h
    simp [get_completed_anime, make_api_request, body_success_false_of h]
  · intro p fs h
    simp [get_subbed_anime, make_api_request, body_success_false_of h]
  · intro p fs h
    simp [get_dubbed_anime, make_api_request, body_success_false_of h]
  · intro g p fs h
    cases hplan : get_anime_by_genre_plan g p <;>
      simp [get_anime_by_genre, hplan, make_api_request, body_success_false_of h]
  · intro t p fs h
    cases hplan : get_anime_by_type_plan t p <;>
      simp [get_anime_by_type, hplan, make_api_request, body_success_false_of h]
  · intro s fs h
    simp [get_anime_details, make_api_request, body_success_false_of h]
  · intro s fs h
    simp [get_anime_episodes, make_api_request, body_success_false_of h]
  · intro s n fs h
    simp [get_episode_info, make_api_request, body_success_false_of h]
  · intro lt p fs h
    cases hplan : get_anime_az_list_plan lt p <;>
      simp [get_anime_az_list, hplan, make_api_request, body_success_false_of h]
  · intro ps p fs h
    simp [get_anime_by_producer, make_api_request, body_success_false_of h]
  · intro a fs h
    cases hplan : filter_anime_plan a <;>
      simp [filter_anime, hplan, make_api_request, body_success_false_of h]
  · intro q l fs h
    simp [mal_search, make_api_request, body_success_false_of h]
  · intro i fs h
    simp [mal_anime_details, make_api_request, body_success_false_of h]
  · intro rt l fs h
    cases hplan : mal_ranking_plan rt l <;>
      simp [mal_ranking, hplan, make_api_request, body_success_false_of h]
  · intro y s l fs h
    cases hplan : mal_seasonal_plan y s l <;>
      simp [mal_seasonal, hplan, make_api_request, body_success_false_of h]
  · intro q l fs h
    simp [combined_search, make_api_request, body_success_false_of h]
  · intro cid ru cs fs h
    simp [mal_get_auth_url, body_success_false_of h]
  · intro cid cd cv ru cs fs h
    simp [mal_exchange_token, body_success_false_of h]
  · intro cid tok l fs h
    simp [mal_user_animelist, mal_user_animelist_plan, optTruthy, body_success_false_of h]
  · intro cid tok fs h
    simp [mal_user_profile, body_success_false_of h]

/-- C9 witness: a body with `success: false` makes `search_anime` answer
exactly as on a timeout. -/
theorem C9_success_flag_amended_witness :
    search_anime "naruto" 1 (.ok (.obj [("success", .bool false)]))
      = search_anime "naruto" 1 .timeout :=
  C9_success_flag_amended.1 "naruto" 1 [("success", .bool false)] (by decide)

/-! ### Claim C7 -/

/-- C7 counterexample: `combined_search` issues exactly one upstream request
(to the combined endpoint), not two independent per-provider calls. -/
theorem C7_counterexample_single_upstream_call :
    (combined_search_requests "naruto" 5).length = 1 ∧ (1 : Nat) ≠ 2 :=
  ⟨rfl, by decide⟩

/-- C7 (amended): `combined_search` issues a single request to the combined
endpoint; when the successful response carries an empty result list for
exactly one provider, the tool still renders the other provider's section
and an explicit `No results from <provider>.` line for the empty side,
instead of an overall error. -/
theorem C7_combined_search_amended :
    (∀ q l, (combined_search_requests q l).length = 1) ∧
    (∀ q l mxs ms, mxs ≠ [] → format_mal_anime_list (.arr mxs) = .ok ms →
        combined_search q l (.ok (combined_body (.arr []) (.arr mxs))) =
          .ok ("🔍 **Combined Search Results for '" ++ q ++ "'**\n" ++ eqBar ++ "\n"
            ++ "\n📺 **HiAnime Results:**\n" ++ "   No results from HiAnime.\n"
            ++ "\n\n📊 **MyAnimeList Results:**\n" ++ ms)) ∧
    (∀ q l hxs hstr, hxs ≠ [] → format_anime_list (.arr hxs) = .ok hstr →
        combined_search q l (.ok (combined_body (.arr hxs) (.arr []))) =
          .ok ("🔍 **Combined Search Results for '" ++ q ++ "'**\n" ++ eqBar ++ "\n"
            ++ "\n📺 **HiAnime Results:**\n" ++ hstr
            ++ "\n\n📊 **MyAnimeList Results:**\n" ++ "   No results from MAL.\n")) := by
  refine ⟨fun q l => rfl, ?_, ?_⟩
  · intro q l mxs ms hne hfmt
    obtain ⟨a, as, rfl⟩ : ∃ a as, mxs = a :: as := by
      cases mxs with
      | nil => exact absurd rfl hne
      | cons a as => exact ⟨a, as, rfl⟩
    simp [combined_search, make_api_request, combined_body, body_success, truthy, pyGet,
      dGet, hfmt]
  · intro q l hxs hstr hne hfmt
    obtain ⟨a, as, rfl⟩ : ∃ a as, hxs = a :: as := by
      cases hxs with
      | nil => exact absurd rfl hne
      | cons a as => exact ⟨a, as, rfl⟩
    simp [combined_search, make_api_request, combined_body, body_success, truthy, pyGet,
      dGet, hfmt]

/-- C7 witness: a one-item MAL list with an empty HiAnime list renders the
MAL block plus the `No results from HiAnime.` line. -/
theorem C7_combined_search_amended_witness :
    combined_search "naruto" 5 (.ok (combined_body (.arr []) (.arr [JVal.obj []]))) =
      .ok ("🔍 **Combined Search Results for '" ++ "naruto" ++ "'**\n" ++ eqBar ++ "\n"
        ++ "\n📺 **HiAnime Results:**\n" ++ "   No results from HiAnime.\n"
        ++ "\n\n📊 **MyAnimeList Results:**\n"
        ++ "\n📺 **Unknown Title**\n   ▸ MAL ID: `N/A` ← Use this for MAL details lookup\n   ▸ MAL URL: https://myanimelist.net/anime/N/A") :=
  C7_combined_search_amended.2.1 "naruto" 5 [JVal.obj []]
    "\n📺 **Unknown Title**\n   ▸ MAL ID: `N/A` ← Use this for MAL details lookup\n   ▸ MAL URL: https://myanimelist.net/anime/N/A"
    (List.cons_ne_nil _ _) (by rfl)

/-! ### Claim C6 -/

/-- C6: `format_episode_list` renders the empty list as the fixed sentence;
a non-empty list of at most 20 entries renders every entry in order with no
suffix; a longer list renders exactly the first 20 entries in order followed
by `... and N more episodes.` with `N` the count beyond 20. -/
theorem C6_episode_list_truncation :
    (format_episode_list (.arr []) = .ok "No episodes found.") ∧
    (∀ eps lines, eps ≠ [] → eps.length ≤ 20 →
        mapME (episode_line true) eps = .ok lines →
        format_episode_list (.arr eps) = .ok (joinSep "\n\n" lines)) ∧
    (∀ eps lines, eps.length > 20 →
        mapME (episode_line true) (eps.take 20) = .ok lines →
        format_episode_list (.arr eps) =
          .ok (joinSep "\n\n" lines ++ "\n\n... and " ++ toString (eps.length - 20)
            ++ " more episodes.")) := by
  refine ⟨rfl, ?_, ?_⟩
  · intro eps lines hne hle hmap
    have ht : truthy (.arr eps) = true := by
      cases eps with
      | nil => exact absurd rfl hne
      | cons a as => simp [truthy]
    have htake : eps.take 20 = eps := List.take_of_length_le hle
    have hnot : ¬ eps.length > 20 := Nat.not_lt.mpr hle
    unfold format_episode_list
    simp [ht, pyIter, htake, hmap, hnot]
  · intro eps lines hgt hmap
    have ht : truthy (.arr eps) = true := by
      cases eps with
      | nil => simp at hgt
      | cons a as => simp [truthy]
    unfold format_episode_list
    simp [ht, pyIter, hmap, hgt]

/-- C6 witness: a 25-entry list renders its first 20 entries and the literal
`... and 5 more episodes.` suffix. -/
theorem C6_episode_list_truncation_witness :
    (List.replicate 25 (JVal.obj [])).length > 20 ∧
    format_episode_list (.arr (List.replicate 25 (JVal.obj []))) =
      .ok (joinSep "\n\n" (List.replicate 20 "   Episode N/A: N/A") ++ "\n\n... and "
        ++ toString ((List.replicate 25 (JVal.obj [])).length - 20) ++ " more episodes.") :=
  ⟨by decide,
   C6_episode_list_truncation.2.2 (List.replicate 25 (JVal.obj []))
     (List.replicate 20 "   Episode N/A: N/A") (by decide) (by rfl)⟩

/-! ### Claim C10 -/

/-- C10: `format_mal_user_animelist` renders the empty list as
`No anime in list.`; a non-empty list of at most 25 entries renders every
entry in order with no suffix; a longer list renders exactly the first 25
entries in order followed by `... and N more anime.` with `N` the count
beyond 25. -/
theorem C10_user_animelist_truncation :
    (format_mal_user_animelist (.arr []) = .ok "No anime in list.") ∧
    (∀ xs lines, xs ≠ [] → xs.length ≤ 25 →
        mapME mal_user_item_line xs = .ok lines →
        format_mal_user_animelist (.arr xs) = .ok (joinSep "\n" lines)) ∧
    (∀ xs lines, xs.length > 25 →
        mapME mal_user_item_line (xs.take 25) = .ok lines →
        format_mal_user_animelist (.arr xs) =
          .ok (joinSep "\n" lines ++ "\n\n... and " ++ toString (xs.length - 25)
            ++ " more anime.")) := by
  refine ⟨rfl, ?_, ?_⟩
  · intro xs lines hne hle hmap
    have ht : truthy (.arr xs) = true := by
      cases xs with
      | nil => exact absurd rfl hne
      | cons a as => simp [truthy]
    have htake : xs.take 25 = xs := List.take_of_length_le hle
    have hnot : ¬ xs.length > 25 := Nat.not_lt.mpr hle
    unfold format_mal_user_animelist
    simp [ht, pyIter, htake, hmap, hnot]
  · intro xs lines hgt hmap
    have ht : truthy (.arr xs) = true := by
      cases xs with
      | nil => simp at hgt
      | cons a as => simp [truthy]
    unfold format_mal_user_animelist
    simp [ht, pyIter, hmap, hgt]

/-- C10 witness: a 26-entry list renders its first 25 entries and the
literal `... and 1 more anime.` suffix. -/
theorem C10_user_animelist_truncation_witness :
    (List.replicate 26 (JVal.obj [])).length > 25 ∧
    format_mal_user_animelist (.arr (List.replicate 26 (JVal.obj []))) =
      .ok (joinSep "\n" (List.replicate 25
          "\n📺 **Unknown Title**\n   ▸ MAL ID: N/A\n   ▸ Status: N/A\n   ▸ Score: Not rated\n   ▸ Episodes Watched: 0")
        ++ "\n\n... and " ++ toString ((List.replicate 26 (JVal.obj [])).length - 25)
        ++ " more anime.") :=
  ⟨by decide,
   C10_user_animelist_truncation.2.2 (List.replicate 26 (JVal.obj []))
     (List.replicate 25
       "\n📺 **Unknown Title**\n   ▸ MAL ID: N/A\n   ▸ Status: N/A\n   ▸ Score: Not rated\n   ▸ Episodes Watched: 0")
     (by decide) (by rfl)⟩

end HiAnime

